import Mathlib

/-!
# Skeleton detector: heatmap decoding

A shallow embedding of `examples/base/skeleton_detector.cc` (namespace `TNN_NS`).

Modelling conventions.

* A `float` is modelled by the rational number it denotes and float arithmetic by exact
  rational arithmetic: rounding and NaN are outside the model.  No finite `float` is below
  `-FLT_MAX`.  A score below `-FLT_MAX` stands for the float `-inf`: the source only compares
  scores, and each of its comparisons has the same outcome on `-inf` as on such a rational.
  Dividing by a heatmap dimension that is zero gives an infinity or NaN in the source and `0`
  in the model; no property below depends on the scale factors of such a heatmap.
* An `int` is modelled by an integer (`Nat` for the dimensions of an allocated tensor, `Int`
  for the other fields).  Signed overflow is undefined behaviour in the source: the model
  reports it as `Fault.intOverflow`.
* Unchecked indexing (`data_c[idx]`, `detected[line.first]`) outside the container is
  undefined behaviour in the source: the model reports it as `Fault.outOfBounds`.
* A `std::vector` is a `List`; `v[c] = x` on an index that is in range is `List.set`.
* `std::shared_ptr<T>` of a polymorphic base is an `Option` of an inductive type that lists
  the dynamic types that matter; `dynamic_cast` is a match on it.
-/

namespace TNN_NS

/-- The constant `FLT_MAX` of `<cfloat>`: the largest finite `float`, `(2^24 - 1) * 2^104`. -/
def FLT_MAX : ℚ := 340282346638528859811704183484516925440

/-- The constant `INT_MAX` of `<climits>` for a 32-bit `int`. -/
def INT_MAX : Nat := 2147483647

/-- Undefined behaviour the source can run into. -/
inductive Fault where
  | outOfBounds
  | intOverflow
  deriving DecidableEq

/-- The part of `TNN_NS::Mat` the detector reads: `GetChannel()`, `GetHeight()`, `GetWidth()`
and the buffer behind `GetData()`, a dense `float` array laid out channel by channel, each
channel row-major. -/
structure Mat where
  channel : Nat
  height : Nat
  width : Nat
  data : List ℚ
  deriving DecidableEq

/-- The fields of `SkeletonInfo` that `GenerateSkeleton` writes: `key_points` is a
`std::vector<std::pair<float, float>>`, `lines` a `std::vector<std::pair<int, int>>`. -/
structure SkeletonInfo where
  key_points : List (ℚ × ℚ)
  lines : List (Int × Int)
  image_width : Int
  image_height : Int
  deriving DecidableEq

/-- The class `SkeletonDetectorOutput`: the named mats it inherits from `TNNSDKOutput` and its
own members `keypoints` and `confidence_list`. -/
structure SkeletonDetectorOutput where
  mat_map : List (String × Mat)
  keypoints : SkeletonInfo
  confidence_list : List ℚ
  deriving DecidableEq

/-- The class `SkeletonDetectorOption`. -/
structure SkeletonDetectorOption where
  input_width : Int
  input_height : Int
  min_threshold : ℚ
  deriving DecidableEq

/-- Dynamic type of the object behind a `std::shared_ptr<TNNSDKOption>`. -/
inductive TNNSDKOption where
  | base
  | skeleton (option : SkeletonDetectorOption)
  deriving DecidableEq

/-- Dynamic type of the object behind a `std::shared_ptr<TNNSDKOutput>`. -/
inductive TNNSDKOutput where
  | base (mat_map : List (String × Mat))
  | skeleton (output : SkeletonDetectorOutput)
  deriving DecidableEq

/-- Status codes used by the detector. -/
inductive StatusCode where
  | TNN_OK
  | TNNERR_PARAM_ERR
  deriving DecidableEq

/-- The class `Status`: a code and a message (`TNN_OK` has the empty message). -/
structure Status where
  code : StatusCode
  message : String
  deriving DecidableEq

/-- The members of `SkeletonDetector` used by the decode: the stored option `option_`
(`none` is the null pointer), the remembered original image shape and the bone pairs
`lines`. -/
structure SkeletonDetector where
  option_ : Option TNNSDKOption
  orig_input_height : Int
  orig_input_width : Int
  lines : List (Int × Int)
  deriving DecidableEq

/-- The loop `for (int i = 0; i < n; ++i) body`, started at counter `i` with `k` iterations
left. -/
def forLoopFrom {σ : Type} (body : Nat → σ → Except Fault σ) : Nat → Nat → σ → Except Fault σ
  | 0, _, s => .ok s
  | k + 1, i, s =>
    match body i s with
    | .error e => .error e
    | .ok t => forLoopFrom body k (i + 1) t

/-- The loop `for (int i = 0; i < n; ++i) body`. -/
def forLoop {σ : Type} (n : Nat) (body : Nat → σ → Except Fault σ) (s : σ) : Except Fault σ :=
  forLoopFrom body n 0 s

/-- `std::vector::resize(n)`: cut to `n` elements or pad with value-initialised ones. -/
def resize {α : Type} (v : List α) (n : Nat) (zero : α) : List α :=
  v.take n ++ List.replicate (n - v.length) zero

/-- The locals of the peak scan of one channel (lines 99 to 102). -/
structure PeakScan where
  idx : Nat
  max_pos_h : Int
  max_pos_w : Int
  max_val : ℚ
  deriving DecidableEq

/-- The body of the inner loop (lines 105 to 110) at `(h, w)`; `off` is the offset of
`data_c` in the buffer. -/
def scanPixel (data : List ℚ) (off h w : Nat) (s : PeakScan) : Except Fault PeakScan :=
  match data[off + s.idx]? with
  | none => .error .outOfBounds
  | some val =>
    if INT_MAX < s.idx + 1 then .error .intOverflow
    else if val > s.max_val then
      .ok { idx := s.idx + 1, max_pos_h := h, max_pos_w := w, max_val := val }
    else
      .ok { idx := s.idx + 1, max_pos_h := s.max_pos_h, max_pos_w := s.max_pos_w,
            max_val := s.max_val }

/-- The start of the peak scan: `max_pos_h = -1`, `max_pos_w = -1`, `max_val = -FLT_MAX`,
`idx = 0`. -/
def scanInit : PeakScan :=
  { idx := 0, max_pos_h := -1, max_pos_w := -1, max_val := -FLT_MAX }

/-- Lines 97 to 112: locate the max value inside channel `c`. -/
def scanChannel (heatmap : Mat) (c : Nat) : Except Fault PeakScan :=
  if INT_MAX < c * heatmap.height then .error .intOverflow
  else if INT_MAX < c * heatmap.height * heatmap.width then .error .intOverflow
  else
    forLoop heatmap.height
      (fun h s => forLoop heatmap.width
        (fun w t => scanPixel heatmap.data (c * heatmap.height * heatmap.width) h w t) s)
      scanInit

/-- The three vectors the channel loop fills. -/
structure DecodeState where
  key_points : List (ℚ × ℚ)
  confidence_list : List ℚ
  detected : List Bool
  deriving DecidableEq

/-- The body of the channel loop (lines 97 to 126). -/
def decodeChannel (heatmap : Mat) (threshold scale_h scale_w : ℚ) (coord_need_scale : Bool)
    (c : Nat) (st : DecodeState) : Except Fault DecodeState :=
  match scanChannel heatmap c with
  | .error e => .error e
  | .ok s =>
    if s.max_val < threshold then
      .ok { key_points := st.key_points.set c (-1, -1),
            confidence_list := st.confidence_list.set c s.max_val,
            detected := st.detected.set c false }
    else if coord_need_scale then
      .ok { key_points := st.key_points.set c
              ((s.max_pos_w : ℚ) * scale_w, (s.max_pos_h : ℚ) * scale_h),
            confidence_list := st.confidence_list.set c s.max_val,
            detected := st.detected.set c true }
    else
      .ok { key_points := st.key_points.set c ((s.max_pos_w : ℚ), (s.max_pos_h : ℚ)),
            confidence_list := st.confidence_list.set c s.max_val,
            detected := st.detected.set c true }

/-- Lines 88 to 127: the resizes, the scale factors and the channel loop. -/
def decodeChannels (d : SkeletonDetector) (output : SkeletonDetectorOutput) (heatmap : Mat)
    (threshold : ℚ) : Except Fault DecodeState :=
  let scale_h : ℚ := (d.orig_input_height : ℚ) / (heatmap.height : ℚ)
  let scale_w : ℚ := (d.orig_input_width : ℚ) / (heatmap.width : ℚ)
  let coord_need_scale : Bool := decide (scale_h ≠ 1) || decide (scale_w ≠ 1)
  forLoop heatmap.channel (decodeChannel heatmap threshold scale_h scale_w coord_need_scale)
    { key_points := resize output.keypoints.key_points heatmap.channel (0, 0),
      confidence_list := resize output.confidence_list heatmap.channel 0,
      detected := List.replicate heatmap.channel false }

/-- The unchecked read `detected[i]` with an `int` index. -/
def detectedAt (detected : List Bool) (i : Int) : Except Fault Bool :=
  if i < 0 then .error .outOfBounds
  else
    match detected[i.toNat]? with
    | none => .error .outOfBounds
    | some b => .ok b

/-- Lines 128 to 131: the loop over `this->lines`; `acc` is `skeleton.lines`. The second
flag is read only when the first is set (`&&`). -/
def assembleLines (detected : List Bool) :
    List (Int × Int) → List (Int × Int) → Except Fault (List (Int × Int))
  | [], acc => .ok acc
  | line :: rest, acc =>
    match detectedAt detected line.1 with
    | .error e => .error e
    | .ok false => assembleLines detected rest acc
    | .ok true =>
      match detectedAt detected line.2 with
      | .error e => .error e
      | .ok false => assembleLines detected rest acc
      | .ok true => assembleLines detected rest (acc ++ [line])

/-- The method `SkeletonDetector::GenerateSkeleton` (lines 77 to 134); the result is the
output object after the call. -/
def GenerateSkeleton (d : SkeletonDetector) (output : SkeletonDetectorOutput) (heatmap : Mat)
    (threshold : ℚ) : Except Fault SkeletonDetectorOutput :=
  match decodeChannels d output heatmap threshold with
  | .error e => .error e
  | .ok st =>
    match assembleLines st.detected d.lines output.keypoints.lines with
    | .error e => .error e
    | .ok lines =>
      .ok { mat_map := output.mat_map,
            keypoints := { key_points := st.key_points,
                           lines := lines,
                           image_width := d.orig_input_width,
                           image_height := d.orig_input_height },
            confidence_list := st.confidence_list }

/-- Modelled from the spec: `TNNSDKOutput::GetMat` is declared outside the sources at hand;
the output holds named buffers and `GetMat(name)` is the buffer stored under `name`, the null
pointer (`none`) when the requested buffer is absent. -/
def GetMat (mat_map : List (String × Mat)) (name : String) : Option Mat :=
  mat_map.lookup name

/-- The method `SkeletonDetector::CreateSDKOutput` (lines 54 to 56): a default-constructed
`SkeletonDetectorOutput`, whose vectors are empty. -/
def CreateSDKOutput : SkeletonDetectorOutput :=
  { mat_map := [],
    keypoints := { key_points := [], lines := [], image_width := 0, image_height := 0 },
    confidence_list := [] }

/-- The method `SkeletonDetector::ProcessSDKInputMat` (lines 39 to 43), as the detector after
the call; the resized mat it returns comes from `TNNSDKSample::ResizeToInputShape` and is not
modelled. -/
def ProcessSDKInputMat (d : SkeletonDetector) (input_mat : Mat) : SkeletonDetector :=
  { option_ := d.option_,
    orig_input_height := (input_mat.height : Int),
    orig_input_width := (input_mat.width : Int),
    lines := d.lines }

/-- The method `SkeletonDetector::ProcessSDKOutput` (lines 58 to 75): the returned status and
the object behind `output_` after the call. `RETURN_VALUE_ON_NEQ(!p, false, v)` returns `v`
when the pointer `p` is null. -/
def ProcessSDKOutput (d : SkeletonDetector) (output_ : Option TNNSDKOutput) :
    Except Fault (Status × Option TNNSDKOutput) :=
  match d.option_ with
  | some (.skeleton option) =>
    match output_ with
    | some (.skeleton output) =>
      match GetMat output.mat_map "heatmap" with
      | some heatmap =>
        match GenerateSkeleton d output heatmap option.min_threshold with
        | .error e => .error e
        | .ok output' => .ok ({ code := .TNN_OK, message := "" }, some (.skeleton output'))
      | none =>
        .ok ({ code := .TNNERR_PARAM_ERR, message := "heatmap mat is nil" }, output_)
    | _ => .ok ({ code := .TNNERR_PARAM_ERR, message := "TNNSDKOutput is invalid" }, output_)
  | _ => .ok ({ code := .TNNERR_PARAM_ERR, message := "TNNSDKOption is invalid" }, output_)

/-! ## Vocabulary of the properties -/

/-- A heatmap the decode can read without undefined behaviour: the buffer holds the
`C * H * W` scores and the offsets the scan computes fit in an `int`. -/
def Mat.WF (m : Mat) : Prop :=
  m.channel * m.height * m.width ≤ m.data.length ∧
  m.channel * m.height ≤ INT_MAX ∧
  m.channel * m.height * m.width ≤ INT_MAX

/-- No score of the buffer is below `-FLT_MAX`, the least finite `float`: none is `-inf`. -/
def Mat.NoScoreBelowMin (m : Mat) : Prop :=
  ∀ x ∈ m.data, -FLT_MAX ≤ x

/-- The score of pixel `(h, w)` of channel `c`: element `c * H * W + h * W + w` of the
buffer. -/
def Mat.score (m : Mat) (c h w : Nat) : ℚ :=
  m.data.getD (c * m.height * m.width + (h * m.width + w)) 0

/-- The value `v` is the maximum score over the `H * W` pixels of channel `c`. -/
def IsPlaneMax (m : Mat) (c : Nat) (v : ℚ) : Prop :=
  (∃ h w, h < m.height ∧ w < m.width ∧ m.score c h w = v) ∧
  ∀ h w, h < m.height → w < m.width → m.score c h w ≤ v

/-- The pixel `(row, col)` holds the maximum of channel `c` and no pixel before it in
row-major order holds the same score. -/
def IsFirstPeak (m : Mat) (c row col : Nat) : Prop :=
  row < m.height ∧ col < m.width ∧ IsPlaneMax m c (m.score c row col) ∧
  ∀ h w, h < m.height → w < m.width → (h < row ∨ (h = row ∧ w < col)) →
    m.score c h w ≠ m.score c row col

/-- The position a scan ended with is the row-major-first maximum of channel `c`. -/
def PeakIsFirstMax (m : Mat) (c : Nat) (s : PeakScan) : Prop :=
  ∃ row col : Nat, s.max_pos_h = (row : Int) ∧ s.max_pos_w = (col : Int) ∧
    IsFirstPeak m c row col

/-- Every joint index of the bone pairs is a channel index. -/
def LinesInRange (lines : List (Int × Int)) (C : Nat) : Prop :=
  ∀ l ∈ lines, (0 ≤ l.1 ∧ l.1 < (C : Int)) ∧ (0 ≤ l.2 ∧ l.2 < (C : Int))

/-- The flag `detected[i]`, for an index in range. -/
def flagAt (detected : List Bool) (i : Int) : Bool :=
  detected.getD i.toNat false

/-- The keypoint lines 113 to 125 write for a channel whose scan ended in `s`. -/
def emittedKeypoint (threshold scale_h scale_w : ℚ) (coord_need_scale : Bool) (s : PeakScan) :
    ℚ × ℚ :=
  if s.max_val < threshold then (-1, -1)
  else if coord_need_scale then ((s.max_pos_w : ℚ) * scale_w, (s.max_pos_h : ℚ) * scale_h)
  else ((s.max_pos_w : ℚ), (s.max_pos_h : ℚ))

/-- Invariant of the peak scan after the first `k` pixels (row-major) of a plane whose `j`-th
pixel is `px j`. -/
def ScanInv (px : Nat → ℚ) (W k : Nat) (s : PeakScan) : Prop :=
  s.idx = k ∧
  ((s.max_val = -FLT_MAX ∧ s.max_pos_h = -1 ∧ s.max_pos_w = -1 ∧ ∀ j, j < k → px j ≤ -FLT_MAX) ∨
   (∃ h w : Nat, w < W ∧ h * W + w < k ∧ s.max_pos_h = (h : Int) ∧ s.max_pos_w = (w : Int) ∧
      px (h * W + w) = s.max_val ∧ -FLT_MAX < s.max_val ∧
      (∀ j, j < k → px j ≤ s.max_val) ∧ (∀ j, j < h * W + w → px j < s.max_val)))

/-- What the channel loop has established after `c` channels. -/
def DecodeInv (m : Mat) (thr sh sw : ℚ) (cns : Bool) (c : Nat) (st : DecodeState) : Prop :=
  st.key_points.length = m.channel ∧ st.confidence_list.length = m.channel ∧
  st.detected.length = m.channel ∧
  ∀ i, i < c → ∃ s, scanChannel m i = .ok s ∧
    st.key_points[i]? = some (emittedKeypoint thr sh sw cns s) ∧
    st.confidence_list[i]? = some s.max_val ∧
    st.detected[i]? = some (decide (thr ≤ s.max_val))

/-- The three conditions under which `ProcessSDKOutput` reports a parameter error: the
stored option is not a `SkeletonDetectorOption`, the output object is not a
`SkeletonDetectorOutput`, or the output holds no mat named `heatmap`. -/
def ParamInvalid (d : SkeletonDetector) (output_ : Option TNNSDKOutput) : Prop :=
  (∀ option, d.option_ ≠ some (.skeleton option)) ∨
  (∀ output, output_ ≠ some (.skeleton output)) ∨
  (∃ output, output_ = some (.skeleton output) ∧ GetMat output.mat_map "heatmap" = none)

/-! ## Concrete inputs -/

/-- The heatmap of the scenarios: one channel, `[[0.1, 0.9], [0.2, 0.05]]`. -/
def scenarioHeatmap : Mat :=
  { channel := 1, height := 2, width := 2, data := [1/10, 9/10, 2/10, 5/100] }

/-- A detector that remembers an original image of 4 by 4 and has no bone. -/
def scenarioDetector : SkeletonDetector :=
  { option_ := some (.skeleton { input_width := 2, input_height := 2, min_threshold := 1/2 }),
    orig_input_height := 4, orig_input_width := 4, lines := [] }

/-- Two joints on 1 by 1 planes, scores 0.9 and 0.8. -/
def twoJointHeatmap : Mat :=
  { channel := 2, height := 1, width := 1, data := [9/10, 8/10] }

/-- Two joints on 1 by 1 planes, scores 0.9 and 0.1. -/
def twoJointWeakHeatmap : Mat :=
  { channel := 2, height := 1, width := 1, data := [9/10, 1/10] }

/-- A detector with the single bone `(0, 1)` and an original image of 1 by 1. -/
def twoJointDetector : SkeletonDetector :=
  { option_ := some (.skeleton { input_width := 1, input_height := 1, min_threshold := 1/2 }),
    orig_input_height := 1, orig_input_width := 1, lines := [(0, 1)] }

/-- One channel of one pixel whose score is `-FLT_MAX`. -/
def floorHeatmap : Mat :=
  { channel := 1, height := 1, width := 1, data := [-FLT_MAX] }

/-- One channel of one pixel whose score is below every finite `float` (the float `-inf`). -/
def belowFloorHeatmap : Mat :=
  { channel := 1, height := 1, width := 1, data := [-FLT_MAX - 1] }

/-- A detector that remembers an original image of 2 by 2 and has no bone. -/
def floorDetector : SkeletonDetector :=
  { option_ := some (.skeleton { input_width := 1, input_height := 1,
                                 min_threshold := -FLT_MAX }),
    orig_input_height := 2, orig_input_width := 2, lines := [] }

/-- An output object that an earlier use has left with three keypoints and one
confidence. -/
def usedOutput : SkeletonDetectorOutput :=
  { mat_map := [],
    keypoints := { key_points := [(5, 5), (6, 6), (7, 7)], lines := [], image_width := 8,
                   image_height := 8 },
    confidence_list := [1] }

/-- A detector after `Init` on which `ProcessSDKInputMat` has never run: the bone `(0, 1)`,
and dimension members that hold no recorded image size. -/
def unusedDetector : SkeletonDetector :=
  { option_ := some (.skeleton { input_width := 1, input_height := 1, min_threshold := 1/2 }),
    orig_input_height := 0, orig_input_width := 0, lines := [(0, 1)] }

/-- A freshly created output object to which the network output `heatmap` was added. -/
def heatmapOutput : SkeletonDetectorOutput :=
  { mat_map := [("heatmap", twoJointHeatmap)],
    keypoints := { key_points := [], lines := [], image_width := 0, image_height := 0 },
    confidence_list := [] }

/-! ## Input conversion and the rescaler -/

/-- Modelled from the spec: `MatConvertParam` is declared outside the sources at hand; it
holds the per-channel scale and bias arrays of the input normalization, the two members that
`GetConvertParamForInput` assigns. -/
structure MatConvertParam where
  scale : List ℚ
  bias : List ℚ
  deriving DecidableEq

/-- The method `SkeletonDetector::GetConvertParamForInput` (lines 45 to 52); it reads neither
its argument `tag` nor a member of the detector. -/
def GetConvertParamForInput (_d : SkeletonDetector) (_tag : String) : MatConvertParam :=
  { scale := [1712475/100000000, 17507/1000000, 1742919/100000000, 0],
    bias := [-211790393/100000000, -203571429/100000000, -180444444/100000000, 0] }

/-- The rescaler as the spec words it: the peak `(row, col)` goes to
`(col * scale_w, row * scale_h)`. -/
def rescaleMultiplied (row col : Int) (scale_h scale_w : ℚ) : ℚ × ℚ :=
  ((col : ℚ) * scale_w, (row : ℚ) * scale_h)

/-- The rescaler as the spec words it when both factors are 1: the peak `(row, col)` goes to
`(col, row)`, no multiplication. -/
def rescaleUnscaled (row col : Int) : ℚ × ℚ :=
  ((col : ℚ), (row : ℚ))

/-- Two input images, 640 by 480 and 4 by 4 (only the shape is read). -/
def firstImage : Mat :=
  { channel := 3, height := 480, width := 640, data := [] }

/-- An input image of 4 by 4 (only the shape is read). -/
def lastImage : Mat :=
  { channel := 3, height := 4, width := 4, data := [] }

/-- A detector whose single bone `(0, 2)` names a joint beyond two channels. -/
def wideBoneDetector : SkeletonDetector :=
  { option_ := some (.skeleton { input_width := 1, input_height := 1, min_threshold := 1/2 }),
    orig_input_height := 1, orig_input_width := 1, lines := [(0, 2)] }

/-- A detector whose single bone `(-1, 0)` has a negative joint index. -/
def negativeBoneDetector : SkeletonDetector :=
  { option_ := some (.skeleton { input_width := 1, input_height := 1, min_threshold := 1/2 }),
    orig_input_height := 1, orig_input_width := 1, lines := [(-1, 0)] }

/-! ## The reads of the scan -/

theorem forLoopFrom_inv {σ : Type} (body : Nat → σ → Except Fault σ) (Inv : Nat → σ → Prop) :
    ∀ (k i : Nat) (s : σ), Inv i s →
      (∀ j t, i ≤ j → j < i + k → Inv j t → ∃ u, body j t = .ok u ∧ Inv (j + 1) u) →
      ∃ t, forLoopFrom body k i s = .ok t ∧ Inv (i + k) t := by
  intro k
  induction k with
  | zero => intro i s hs _; exact ⟨s, rfl, by simpa using hs⟩
  | succ k ih =>
    intro i s hs hstep
    obtain ⟨u, hu, hinv⟩ := hstep i s (le_refl i) (by omega) hs
    obtain ⟨t, ht, htinv⟩ := ih (i + 1) u hinv (fun j t h1 h2 h3 => hstep j t (by omega) (by omega) h3)
    refine ⟨t, ?_, ?_⟩
    · simp only [forLoopFrom, hu]; exact ht
    · have : i + (k + 1) = i + 1 + k := by omega
      rw [this]; exact htinv

theorem forLoop_inv {σ : Type} (body : Nat → σ → Except Fault σ) (Inv : Nat → σ → Prop)
    (n : Nat) (s : σ) (h0 : Inv 0 s)
    (hstep : ∀ j t, j < n → Inv j t → ∃ u, body j t = .ok u ∧ Inv (j + 1) u) :
    ∃ t, forLoop n body s = .ok t ∧ Inv n t := by
  have := forLoopFrom_inv body Inv n 0 s h0 (fun j t _ h2 h3 => hstep j t (by omega) h3)
  simpa [forLoop] using this

theorem forLoopFrom_preserves {σ : Type} (body : Nat → σ → Except Fault σ) (P : σ → Prop)
    (hstep : ∀ j t u, P t → body j t = .ok u → P u) :
    ∀ (k i : Nat) (s t : σ), P s → forLoopFrom body k i s = .ok t → P t := by
  intro k
  induction k with
  | zero => intro i s t hs h; simp [forLoopFrom] at h; exact h ▸ hs
  | succ k ih =>
    intro i s t hs h
    simp only [forLoopFrom] at h
    cases hb : body i s with
    | error e => simp [hb] at h
    | ok u =>
      simp only [hb] at h
      exact ih (i + 1) u t (hstep i s u hs hb) h

theorem scanPixel_inv (data : List ℚ) (off W h w k : Nat) (s : PeakScan)
    (hw : w < W) (hk : k = h * W + w) (hlen : off + k < data.length) (hint : k + 1 ≤ INT_MAX)
    (hs : ScanInv (fun j => data.getD (off + j) 0) W k s) :
    ∃ u, scanPixel data off h w s = .ok u ∧ ScanInv (fun j => data.getD (off + j) 0) W (k + 1) u := by
  obtain ⟨hidx, hcase⟩ := hs
  have hget : data[off + s.idx]? = some (data.getD (off + k) 0) := by
    rw [hidx, List.getD_eq_getElem?_getD, List.getElem?_eq_getElem hlen]; rfl
  have hno : ¬ INT_MAX < s.idx + 1 := by omega
  unfold scanPixel
  simp only [hget, hno, if_false]
  by_cases hgt : data.getD (off + k) 0 > s.max_val
  · simp only [hgt, if_true]
    refine ⟨_, rfl, by simp [hidx], Or.inr ⟨h, w, hw, by omega, rfl, rfl, by simp [hk], ?_, ?_, ?_⟩⟩
    · rcases hcase with ⟨hm, -, -, -⟩ | ⟨_, _, _, _, _, _, _, hlt, _, _⟩
      · simpa [hm] using hgt
      · exact lt_trans hlt hgt
    · intro j hj
      simp only
      rcases Nat.lt_succ_iff_lt_or_eq.mp hj with hj | hj
      · rcases hcase with ⟨hm, -, -, hall⟩ | ⟨_, _, _, _, _, _, _, _, hall, _⟩
        · exact le_of_lt (lt_of_le_of_lt (hm ▸ hall j hj) hgt)
        · exact le_of_lt (lt_of_le_of_lt (hall j hj) hgt)
      · rw [hj]
    · intro j hj
      simp only
      rw [← hk] at hj
      rcases hcase with ⟨hm, -, -, hall⟩ | ⟨_, _, _, _, _, _, _, _, hall, _⟩
      · exact lt_of_le_of_lt (hm ▸ hall j hj) hgt
      · exact lt_of_le_of_lt (hall j hj) hgt
  · simp only [hgt, if_false]
    have hle : data.getD (off + k) 0 ≤ s.max_val := not_lt.mp hgt
    refine ⟨_, rfl, by simp [hidx], ?_⟩
    rcases hcase with ⟨hm, hh, hww, hall⟩ | ⟨h', w', hw', hlt', hh, hww, hpx, hlt, hall, hfirst⟩
    · refine Or.inl ⟨hm, hh, hww, ?_⟩
      intro j hj
      rcases Nat.lt_succ_iff_lt_or_eq.mp hj with hj | hj
      · exact hall j hj
      · rw [hj, ← hm]; exact hle
    · refine Or.inr ⟨h', w', hw', by omega, hh, hww, hpx, hlt, ?_, hfirst⟩
      intro j hj
      rcases Nat.lt_succ_iff_lt_or_eq.mp hj with hj | hj
      · exact hall j hj
      · rw [hj]; exact hle


theorem flat_lt (H W h w : Nat) (hh : h < H) (hw : w < W) : h * W + w < H * W := by
  have h1 : (h + 1) * W ≤ H * W := Nat.mul_le_mul_right W hh
  have h2 : (h + 1) * W = h * W + W := by ring
  omega

theorem plane_le (C H W c : Nat) (hc : c < C) : c * H * W + H * W ≤ C * H * W := by
  have h1 : (c + 1) * (H * W) ≤ C * (H * W) := Nat.mul_le_mul_right (H * W) hc
  have h2 : (c + 1) * (H * W) = c * H * W + H * W := by ring
  have h3 : C * (H * W) = C * H * W := by ring
  omega

theorem scanChannel_spec (m : Mat) (c : Nat) (hwf : m.WF) (hc : c < m.channel) :
    ∃ s, scanChannel m c = .ok s ∧
      ScanInv (fun j => m.data.getD (c * m.height * m.width + j) 0) m.width
        (m.height * m.width) s := by
  obtain ⟨hlen, hCH, hCHW⟩ := hwf
  have hplane := plane_le m.channel m.height m.width c hc
  have h1 : ¬ INT_MAX < c * m.height := by
    have : c * m.height ≤ m.channel * m.height := Nat.mul_le_mul_right _ (le_of_lt hc)
    omega
  have h2 : ¬ INT_MAX < c * m.height * m.width := by omega
  unfold scanChannel
  simp only [h1, h2, if_false]
  apply forLoop_inv _
    (fun h s => ScanInv (fun j => m.data.getD (c * m.height * m.width + j) 0) m.width
      (h * m.width) s)
  · exact ⟨by simp [scanInit], Or.inl ⟨rfl, rfl, rfl, by intro j hj; simp at hj⟩⟩
  · intro h s hh hs
    have key := forLoop_inv
      (fun w t => scanPixel m.data (c * m.height * m.width) h w t)
      (fun w t => ScanInv (fun j => m.data.getD (c * m.height * m.width + j) 0) m.width
        (h * m.width + w) t) m.width s (by simpa using hs)
      (by
        intro w t hw ht
        have hflat := flat_lt m.height m.width h w hh hw
        exact scanPixel_inv m.data (c * m.height * m.width) m.width h w (h * m.width + w) t hw rfl
          (by omega) (by omega) ht)
    obtain ⟨u, hu, hinv⟩ := key
    refine ⟨u, hu, ?_⟩
    have : (h + 1) * m.width = h * m.width + m.width := by ring
    rw [this]; exact hinv

theorem decodeChannel_ok (m : Mat) (thr sh sw : ℚ) (cns : Bool) (c : Nat) (st : DecodeState)
    (s : PeakScan) (hs : scanChannel m c = .ok s) :
    decodeChannel m thr sh sw cns c st =
      .ok { key_points := st.key_points.set c (emittedKeypoint thr sh sw cns s),
            confidence_list := st.confidence_list.set c s.max_val,
            detected := st.detected.set c (decide (thr ≤ s.max_val)) } := by
  unfold decodeChannel emittedKeypoint
  simp only [hs]
  by_cases h1 : s.max_val < thr
  · have : ¬ thr ≤ s.max_val := not_le.mpr h1
    simp [h1, this]
  · have : thr ≤ s.max_val := not_lt.mp h1
    by_cases h2 : cns = true <;> simp [h1, h2, this]

theorem resize_length {α : Type} (v : List α) (n : Nat) (z : α) : (resize v n z).length = n := by
  simp [resize]; omega

theorem decodeChannels_spec (d : SkeletonDetector) (out : SkeletonDetectorOutput) (m : Mat)
    (thr : ℚ) (hwf : m.WF) :
    ∃ st, decodeChannels d out m thr = .ok st ∧
      DecodeInv m thr ((d.orig_input_height : ℚ) / (m.height : ℚ))
        ((d.orig_input_width : ℚ) / (m.width : ℚ))
        (decide ((d.orig_input_height : ℚ) / (m.height : ℚ) ≠ 1) ||
          decide ((d.orig_input_width : ℚ) / (m.width : ℚ) ≠ 1)) m.channel st := by
  unfold decodeChannels
  apply forLoop_inv
  · refine ⟨resize_length _ _ _, resize_length _ _ _, by simp, ?_⟩
    intro i hi; simp at hi
  · intro c st hc ⟨hk, hcf, hdt, hall⟩
    obtain ⟨s, hs, -⟩ := scanChannel_spec m c hwf hc
    refine ⟨_, decodeChannel_ok m thr _ _ _ c st s hs, by simp [hk], by simp [hcf],
      by simp [hdt], ?_⟩
    intro i hi
    rcases Nat.lt_succ_iff_lt_or_eq.mp hi with hi | hi
    · obtain ⟨s', hs', h1, h2, h3⟩ := hall i hi
      have hne : c ≠ i := by omega
      exact ⟨s', hs', by simp [List.getElem?_set_ne hne, h1],
        by simp [List.getElem?_set_ne hne, h2], by simp [List.getElem?_set_ne hne, h3]⟩
    · subst hi
      exact ⟨s, hs, List.getElem?_set_self (by omega), List.getElem?_set_self (by omega),
        List.getElem?_set_self (by omega)⟩

theorem decodeChannels_lengths (d : SkeletonDetector) (out : SkeletonDetectorOutput) (m : Mat)
    (thr : ℚ) (st : DecodeState) (h : decodeChannels d out m thr = .ok st) :
    st.key_points.length = m.channel ∧ st.confidence_list.length = m.channel ∧
      st.detected.length = m.channel := by
  unfold decodeChannels forLoop at h
  refine forLoopFrom_preserves _
    (fun st => st.key_points.length = m.channel ∧ st.confidence_list.length = m.channel ∧
      st.detected.length = m.channel) ?_ m.channel 0 _ st
    ⟨resize_length _ _ _, resize_length _ _ _, by simp⟩ h
  intro j t u ⟨h1, h2, h3⟩ hb
  unfold decodeChannel at hb
  cases hsc : scanChannel m j with
  | error e => simp [hsc] at hb
  | ok s =>
    simp only [hsc] at hb
    split_ifs at hb <;> (cases hb; simp [h1, h2, h3])

theorem detectedAt_ok (det : List Bool) (C : Nat) (hlen : det.length = C) (i : Int)
    (h0 : 0 ≤ i) (h1 : i < (C : Int)) : detectedAt det i = .ok (flagAt det i) := by
  have hlt : i.toNat < det.length := by omega
  unfold detectedAt flagAt
  have : ¬ i < 0 := by omega
  simp [this, List.getElem?_eq_getElem hlt]

theorem assembleLines_spec (det : List Bool) (C : Nat) (hlen : det.length = C) :
    ∀ (lines acc : List (Int × Int)), LinesInRange lines C →
      assembleLines det lines acc =
        .ok (acc ++ lines.filter (fun l => flagAt det l.1 && flagAt det l.2)) := by
  intro lines
  induction lines with
  | nil => intro acc _; simp [assembleLines]
  | cons l rest ih =>
    intro acc hr
    have hl := hr l (List.mem_cons_self _ _)
    have hrest : LinesInRange rest C := fun x hx => hr x (List.mem_cons_of_mem _ hx)
    unfold assembleLines
    rw [detectedAt_ok det C hlen l.1 hl.1.1 hl.1.2, detectedAt_ok det C hlen l.2 hl.2.1 hl.2.2]
    cases ha : flagAt det l.1 <;> cases hb : flagAt det l.2 <;>
      simp [ih _ hrest, ha, hb]

theorem GenerateSkeleton_of_decode (d : SkeletonDetector) (out : SkeletonDetectorOutput)
    (m : Mat) (thr : ℚ) (st : DecodeState) (hst : decodeChannels d out m thr = .ok st)
    (out' : SkeletonDetectorOutput) :
    GenerateSkeleton d out m thr = .ok out' ↔
      ∃ lines, assembleLines st.detected d.lines out.keypoints.lines = .ok lines ∧
        out' = { mat_map := out.mat_map,
                 keypoints := { key_points := st.key_points, lines := lines,
                                image_width := d.orig_input_width,
                                image_height := d.orig_input_height },
                 confidence_list := st.confidence_list } := by
  unfold GenerateSkeleton
  simp only [hst]
  cases hl : assembleLines st.detected d.lines out.keypoints.lines with
  | error e => simp
  | ok lines =>
    simp only [Except.ok.injEq]
    constructor
    · intro h; exact ⟨lines, rfl, h.symm⟩
    · rintro ⟨l2, h1, h2⟩; rw [h2, h1]


/-! ## What the scan of a channel returns -/

theorem flat_lt_of_row_lt (W h w row col : Nat) (hw : w < W) (hlt : h < row) :
    h * W + w < row * W + col := by
  have h1 : (h + 1) * W ≤ row * W := Nat.mul_le_mul_right W hlt
  have h2 : (h + 1) * W = h * W + W := by ring
  omega

theorem row_lt_of_flat_lt (H W h w : Nat) (hlt : h * W + w < H * W) : h < H := by
  by_contra hge
  have h1 : H * W ≤ h * W := Nat.mul_le_mul_right W (not_lt.mp hge)
  omega

theorem scan_first_peak (m : Mat) (c : Nat) (s : PeakScan)
    (hs : ScanInv (fun j => m.data.getD (c * m.height * m.width + j) 0) m.width
      (m.height * m.width) s)
    (hpos : ∃ h w, h < m.height ∧ w < m.width ∧ -FLT_MAX < m.score c h w) :
    ∃ row col : Nat, s.max_pos_h = (row : Int) ∧ s.max_pos_w = (col : Int) ∧
      IsFirstPeak m c row col ∧ s.max_val = m.score c row col := by
  obtain ⟨-, hcase⟩ := hs
  rcases hcase with ⟨-, -, -, hall⟩ | ⟨row, col, hcol, hflat, hh, hw, hpx, -, hall, hfirst⟩
  · obtain ⟨h, w, hh, hw, hlt⟩ := hpos
    have := hall (h * m.width + w) (flat_lt m.height m.width h w hh hw)
    exact absurd hlt (not_lt.mpr this)
  · have hrow : row < m.height := row_lt_of_flat_lt m.height m.width row col hflat
    refine ⟨row, col, hh, hw, ⟨hrow, hcol, ⟨⟨row, col, hrow, hcol, rfl⟩, ?_⟩, ?_⟩, hpx.symm⟩
    · intro h w hh' hw'
      have := hall (h * m.width + w) (flat_lt m.height m.width h w hh' hw')
      exact this.trans (le_of_eq hpx.symm)
    · intro h w _ hw' hbefore
      have hlt : h * m.width + w < row * m.width + col := by
        rcases hbefore with hlt | ⟨heq, hlt⟩
        · exact flat_lt_of_row_lt m.width h w row col hw' hlt
        · subst heq; omega
      have := hfirst (h * m.width + w) hlt
      exact ne_of_lt (this.trans_le (le_of_eq hpx.symm))

theorem scan_floor_value (m : Mat) (c : Nat) (s : PeakScan)
    (hs : ScanInv (fun j => m.data.getD (c * m.height * m.width + j) 0) m.width
      (m.height * m.width) s)
    (hnone : ¬ ∃ h w, h < m.height ∧ w < m.width ∧ -FLT_MAX < m.score c h w) :
    s.max_val = -FLT_MAX := by
  obtain ⟨-, hcase⟩ := hs
  rcases hcase with ⟨hv, -⟩ | ⟨row, col, hcol, hflat, -, -, hpx, hlt, -, -⟩
  · exact hv
  · have hrow := row_lt_of_flat_lt m.height m.width row col hflat
    have hpx' : m.score c row col = s.max_val := hpx
    exact absurd ⟨row, col, hrow, hcol, by rw [hpx']; exact hlt⟩ hnone

theorem scan_plane_max (m : Mat) (c : Nat) (s : PeakScan)
    (hfloor : ∃ h w, h < m.height ∧ w < m.width ∧ -FLT_MAX ≤ m.score c h w)
    (hs : ScanInv (fun j => m.data.getD (c * m.height * m.width + j) 0) m.width
      (m.height * m.width) s) :
    IsPlaneMax m c s.max_val := by
  by_cases hpos : ∃ h w, h < m.height ∧ w < m.width ∧ -FLT_MAX < m.score c h w
  · obtain ⟨row, col, -, -, hpeak, hval⟩ := scan_first_peak m c s hs hpos
    rw [hval]; exact hpeak.2.2.1
  · have hle : ∀ h w, h < m.height → w < m.width → m.score c h w ≤ -FLT_MAX := by
      intro h w hh hw
      by_contra hgt
      exact hpos ⟨h, w, hh, hw, not_le.mp hgt⟩
    obtain ⟨h0, w0, hh0, hw0, hge⟩ := hfloor
    rw [scan_floor_value m c s hs hpos]
    exact ⟨⟨h0, w0, hh0, hw0, le_antisymm (hle h0 w0 hh0 hw0) hge⟩, hle⟩

theorem isPlaneMax_unique (m : Mat) (c : Nat) (a b : ℚ) (ha : IsPlaneMax m c a)
    (hb : IsPlaneMax m c b) : a = b := by
  obtain ⟨⟨h1, w1, hh1, hw1, e1⟩, ua⟩ := ha
  obtain ⟨⟨h2, w2, hh2, hw2, e2⟩, ub⟩ := hb
  exact le_antisymm (e1 ▸ ub h1 w1 hh1 hw1) (e2 ▸ ua h2 w2 hh2 hw2)

theorem isFirstPeak_unique (m : Mat) (c r1 c1 r2 c2 : Nat) (h1 : IsFirstPeak m c r1 c1)
    (h2 : IsFirstPeak m c r2 c2) : r1 = r2 ∧ c1 = c2 := by
  obtain ⟨hr1, hc1, hm1, hf1⟩ := h1
  obtain ⟨hr2, hc2, hm2, hf2⟩ := h2
  have heq := isPlaneMax_unique m c _ _ hm1 hm2
  have a1 : ¬ (r2 < r1 ∨ (r2 = r1 ∧ c2 < c1)) := fun hb => hf1 r2 c2 hr2 hc2 hb heq.symm
  have a2 : ¬ (r1 < r2 ∨ (r1 = r2 ∧ c1 < c2)) := fun hb => hf2 r1 c1 hr1 hc1 hb heq
  omega

/-- The run of `GenerateSkeleton` on a readable heatmap: the channel loop ends, and the call
returns exactly when the bone loop does. -/
theorem GenerateSkeleton_run (d : SkeletonDetector) (out : SkeletonDetectorOutput) (m : Mat)
    (thr : ℚ) (hwf : m.WF) :
    ∃ st, decodeChannels d out m thr = .ok st ∧
      DecodeInv m thr ((d.orig_input_height : ℚ) / (m.height : ℚ))
        ((d.orig_input_width : ℚ) / (m.width : ℚ))
        (decide ((d.orig_input_height : ℚ) / (m.height : ℚ) ≠ 1) ||
          decide ((d.orig_input_width : ℚ) / (m.width : ℚ) ≠ 1)) m.channel st ∧
      (LinesInRange d.lines m.channel →
        GenerateSkeleton d out m thr =
          .ok { mat_map := out.mat_map,
                keypoints :=
                  { key_points := st.key_points,
                    lines := out.keypoints.lines ++
                      d.lines.filter (fun l => flagAt st.detected l.1 && flagAt st.detected l.2),
                    image_width := d.orig_input_width,
                    image_height := d.orig_input_height },
                confidence_list := st.confidence_list }) ∧
      ∀ out', GenerateSkeleton d out m thr = .ok out' →
        out'.keypoints.key_points = st.key_points ∧
        out'.confidence_list = st.confidence_list ∧
        out'.keypoints.image_width = d.orig_input_width ∧
        out'.keypoints.image_height = d.orig_input_height ∧
        out'.mat_map = out.mat_map := by
  obtain ⟨st, hst, hinv⟩ := decodeChannels_spec d out m thr hwf
  refine ⟨st, hst, hinv, ?_, ?_⟩
  · intro hl
    rw [GenerateSkeleton_of_decode d out m thr st hst]
    exact ⟨_, assembleLines_spec st.detected m.channel hinv.2.2.1 d.lines _ hl, rfl⟩
  · intro out' h
    obtain ⟨lines, -, rfl⟩ := (GenerateSkeleton_of_decode d out m thr st hst out').mp h
    exact ⟨rfl, rfl, rfl, rfl, rfl⟩


/-! ## Evaluation of the concrete inputs -/

theorem scenarioHeatmap_wf : scenarioHeatmap.WF := by
  simp [Mat.WF, scenarioHeatmap, INT_MAX]

theorem twoJointHeatmap_wf : twoJointHeatmap.WF := by
  simp [Mat.WF, twoJointHeatmap, INT_MAX]

theorem floorHeatmap_wf : floorHeatmap.WF := by
  simp [Mat.WF, floorHeatmap, INT_MAX]

theorem scenarioHeatmap_peak : IsFirstPeak scenarioHeatmap 0 0 1 := by
  refine ⟨by decide, by decide, ⟨⟨0, 1, by decide, by decide, rfl⟩, ?_⟩, ?_⟩
  · intro h w hh hw
    simp only [scenarioHeatmap] at hh hw
    interval_cases h <;> interval_cases w <;> norm_num [Mat.score, scenarioHeatmap]
  · intro h w hh hw hb
    simp only [scenarioHeatmap] at hh hw
    interval_cases h <;> interval_cases w <;> norm_num [Mat.score, scenarioHeatmap] at hb ⊢

theorem scenario_run :
    GenerateSkeleton scenarioDetector CreateSDKOutput scenarioHeatmap (1/2) =
      .ok { mat_map := [],
            keypoints := { key_points := [(2, 0)], lines := [], image_width := 4,
                           image_height := 4 },
            confidence_list := [9/10] } := by
  norm_num [GenerateSkeleton, decodeChannels, forLoop, forLoopFrom, decodeChannel, scanChannel,
    scanPixel, scanInit, assembleLines, resize, scenarioDetector, CreateSDKOutput,
    scenarioHeatmap, FLT_MAX, INT_MAX]

theorem scenario_run_high :
    GenerateSkeleton scenarioDetector CreateSDKOutput scenarioHeatmap (95/100) =
      .ok { mat_map := [],
            keypoints := { key_points := [(-1, -1)], lines := [], image_width := 4,
                           image_height := 4 },
            confidence_list := [9/10] } := by
  norm_num [GenerateSkeleton, decodeChannels, forLoop, forLoopFrom, decodeChannel, scanChannel,
    scanPixel, scanInit, assembleLines, resize, scenarioDetector, CreateSDKOutput,
    scenarioHeatmap, FLT_MAX, INT_MAX]

theorem twoJoint_run :
    GenerateSkeleton twoJointDetector CreateSDKOutput twoJointHeatmap (1/2) =
      .ok { mat_map := [],
            keypoints := { key_points := [(0, 0), (0, 0)], lines := [(0, 1)], image_width := 1,
                           image_height := 1 },
            confidence_list := [9/10, 8/10] } := by
  norm_num [GenerateSkeleton, decodeChannels, forLoop, forLoopFrom, decodeChannel, scanChannel,
    scanPixel, scanInit, assembleLines, detectedAt, resize, List.replicate, twoJointDetector,
    CreateSDKOutput,
    twoJointHeatmap, FLT_MAX, INT_MAX]

theorem twoJointWeak_run :
    GenerateSkeleton twoJointDetector CreateSDKOutput twoJointWeakHeatmap (1/2) =
      .ok { mat_map := [],
            keypoints := { key_points := [(0, 0), (-1, -1)], lines := [], image_width := 1,
                           image_height := 1 },
            confidence_list := [9/10, 1/10] } := by
  norm_num [GenerateSkeleton, decodeChannels, forLoop, forLoopFrom, decodeChannel, scanChannel,
    scanPixel, scanInit, assembleLines, detectedAt, resize, List.replicate, twoJointDetector,
    CreateSDKOutput,
    twoJointWeakHeatmap, FLT_MAX, INT_MAX]

theorem floor_scan :
    scanChannel floorHeatmap 0 =
      .ok { idx := 1, max_pos_h := -1, max_pos_w := -1, max_val := -FLT_MAX } := by
  norm_num [scanChannel, forLoop, forLoopFrom, scanPixel, scanInit, floorHeatmap, INT_MAX]

theorem floor_run :
    GenerateSkeleton floorDetector CreateSDKOutput floorHeatmap (-FLT_MAX) =
      .ok { mat_map := [],
            keypoints := { key_points := [(-2, -2)], lines := [], image_width := 2,
                           image_height := 2 },
            confidence_list := [-FLT_MAX] } := by
  norm_num [GenerateSkeleton, decodeChannels, forLoop, forLoopFrom, decodeChannel, scanChannel,
    scanPixel, scanInit, assembleLines, resize, floorDetector, CreateSDKOutput,
    floorHeatmap, INT_MAX]


theorem belowFloorHeatmap_wf : belowFloorHeatmap.WF := by
  simp [Mat.WF, belowFloorHeatmap, INT_MAX]

theorem belowFloorHeatmap_max : IsPlaneMax belowFloorHeatmap 0 (-FLT_MAX - 1) := by
  refine ⟨⟨0, 0, by decide, by decide, rfl⟩, ?_⟩
  intro h w hh hw
  simp only [belowFloorHeatmap] at hh hw
  interval_cases h; interval_cases w
  exact le_refl _

theorem below_floor_run :
    GenerateSkeleton scenarioDetector CreateSDKOutput belowFloorHeatmap (1/2) =
      .ok { mat_map := [],
            keypoints := { key_points := [(-1, -1)], lines := [], image_width := 4,
                           image_height := 4 },
            confidence_list := [-FLT_MAX] } := by
  norm_num [GenerateSkeleton, decodeChannels, forLoop, forLoopFrom, decodeChannel, scanChannel,
    scanPixel, scanInit, assembleLines, resize, scenarioDetector, CreateSDKOutput,
    belowFloorHeatmap, FLT_MAX, INT_MAX]

/-- C1: whatever the dimensions, the threshold, the bone pairs and the prior content of the
output object, a call of `GenerateSkeleton` that returns leaves a keypoint list and a
confidence list of exactly `C` entries each, `C` being the channel count of the heatmap; and
the call does return when the heatmap is readable and the bone pairs index channels. -/
theorem GenerateSkeleton_lengths (d : SkeletonDetector) (out : SkeletonDetectorOutput)
    (m : Mat) (thr : ℚ) :
    (∀ out', GenerateSkeleton d out m thr = .ok out' →
      out'.keypoints.key_points.length = m.channel ∧
      out'.confidence_list.length = m.channel) ∧
    (m.WF → LinesInRange d.lines m.channel →
      ∃ out', GenerateSkeleton d out m thr = .ok out') := by
  constructor
  · intro out' h
    cases hdc : decodeChannels d out m thr with
    | error e => simp [GenerateSkeleton, hdc] at h
    | ok st =>
      obtain ⟨lines, -, rfl⟩ := (GenerateSkeleton_of_decode d out m thr st hdc out').mp h
      have := decodeChannels_lengths d out m thr st hdc
      exact ⟨this.1, this.2.1⟩
  · intro hwf hl
    obtain ⟨st, -, -, hrun, -⟩ := GenerateSkeleton_run d out m thr hwf
    exact ⟨_, hrun hl⟩

/-- C1, on two joints and an output object that already holds three keypoints and one
confidence: the call returns and both lists have length 2. -/
theorem GenerateSkeleton_lengths_witness :
    twoJointHeatmap.WF ∧ LinesInRange twoJointDetector.lines twoJointHeatmap.channel ∧
    ∃ out', GenerateSkeleton twoJointDetector usedOutput twoJointHeatmap (1/2) = .ok out' ∧
      out'.keypoints.key_points.length = 2 ∧ out'.confidence_list.length = 2 := by
  have hl : LinesInRange twoJointDetector.lines twoJointHeatmap.channel := by
    intro l hl
    simp only [twoJointDetector, List.mem_singleton] at hl
    subst hl
    simp [twoJointHeatmap]
  have key := GenerateSkeleton_lengths twoJointDetector usedOutput twoJointHeatmap (1/2)
  obtain ⟨out', h⟩ := key.2 twoJointHeatmap_wf hl
  exact ⟨twoJointHeatmap_wf, hl, out', h, key.1 out' h⟩

/-- C2, as the code has it: on a readable heatmap, for a channel `c` whose plane holds a
score that is not below `-FLT_MAX` (the initial value of `max_val`), the confidence that
`GenerateSkeleton` stores at index `c` is the maximum score over the pixels of channel `c`,
whatever the threshold is (so also when the channel stays below it). -/
theorem confidence_is_plane_max (d : SkeletonDetector) (out : SkeletonDetectorOutput)
    (m : Mat) (thr : ℚ) (c : Nat) (hwf : m.WF) (hc : c < m.channel)
    (hfloor : ∃ h w, h < m.height ∧ w < m.width ∧ -FLT_MAX ≤ m.score c h w) :
    (LinesInRange d.lines m.channel → ∃ out', GenerateSkeleton d out m thr = .ok out') ∧
    ∀ out', GenerateSkeleton d out m thr = .ok out' →
      ∃ v, out'.confidence_list[c]? = some v ∧ IsPlaneMax m c v := by
  obtain ⟨st, -, hinv, hrun, hout⟩ := GenerateSkeleton_run d out m thr hwf
  refine ⟨fun hl => ⟨_, hrun hl⟩, ?_⟩
  intro out' h
  obtain ⟨s, hs, -, hconf, -⟩ := hinv.2.2.2 c hc
  obtain ⟨s', hs', hscan⟩ := scanChannel_spec m c hwf hc
  have hss : s' = s := by rw [hs] at hs'; cases hs'; rfl
  subst hss
  refine ⟨s'.max_val, ?_, scan_plane_max m c s' hfloor hscan⟩
  rw [(hout out' h).2.1]; exact hconf

/-- C2, on the scenario heatmap with threshold 0.95: the channel is below the threshold, its
keypoint is absent and the stored confidence is its maximum 0.9. -/
theorem confidence_is_plane_max_witness :
    scenarioHeatmap.WF ∧
    (∃ h w, h < scenarioHeatmap.height ∧ w < scenarioHeatmap.width ∧
      -FLT_MAX ≤ scenarioHeatmap.score 0 h w) ∧
    ∃ out', GenerateSkeleton scenarioDetector CreateSDKOutput scenarioHeatmap (95/100)
        = .ok out' ∧
      out'.keypoints.key_points = [(-1, -1)] ∧
      ∃ v, out'.confidence_list[0]? = some v ∧ IsPlaneMax scenarioHeatmap 0 v ∧ v = 9/10 := by
  have hfloor : ∃ h w, h < scenarioHeatmap.height ∧ w < scenarioHeatmap.width ∧
      -FLT_MAX ≤ scenarioHeatmap.score 0 h w :=
    ⟨0, 0, by decide, by decide, by norm_num [Mat.score, scenarioHeatmap, FLT_MAX]⟩
  have key := confidence_is_plane_max scenarioDetector CreateSDKOutput scenarioHeatmap
    (95/100) 0 scenarioHeatmap_wf (by decide) hfloor
  obtain ⟨v, hv, hmax⟩ := key.2 _ scenario_run_high
  refine ⟨scenarioHeatmap_wf, hfloor, _, scenario_run_high, rfl, v, hv, hmax, ?_⟩
  simpa using hv.symm

/-- C2 fails as stated: on the one-pixel plane whose score is below `-FLT_MAX` (the float
`-inf`), with `H = W = 1`, the maximum of the plane is that score, and the confidence that
`GenerateSkeleton` stores is `-FLT_MAX`, which is no score of the plane. -/
theorem below_floor_confidence_is_not_plane_max :
    belowFloorHeatmap.WF ∧ 0 < belowFloorHeatmap.height ∧ 0 < belowFloorHeatmap.width ∧
    IsPlaneMax belowFloorHeatmap 0 (-FLT_MAX - 1) ∧
    ∃ out', GenerateSkeleton scenarioDetector CreateSDKOutput belowFloorHeatmap (1/2)
        = .ok out' ∧
      out'.confidence_list[0]? = some (-FLT_MAX) ∧
      ¬ IsPlaneMax belowFloorHeatmap 0 (-FLT_MAX) := by
  refine ⟨belowFloorHeatmap_wf, by decide, by decide, belowFloorHeatmap_max, _,
    below_floor_run, rfl, ?_⟩
  intro h
  have := isPlaneMax_unique _ _ _ _ h belowFloorHeatmap_max
  linarith

/-- C3, as the code has it: on a readable heatmap, when channel `c` holds a score above
`-FLT_MAX`, the scan of channel `c` ends on a position `(row, col)` of the plane that holds
the maximum score, and no position before it in row-major order holds that score. -/
theorem scan_finds_first_peak (m : Mat) (c : Nat) (hwf : m.WF) (hc : c < m.channel)
    (hpos : ∃ h w, h < m.height ∧ w < m.width ∧ -FLT_MAX < m.score c h w) :
    ∃ s, scanChannel m c = .ok s ∧ PeakIsFirstMax m c s := by
  obtain ⟨s, hs, hscan⟩ := scanChannel_spec m c hwf hc
  obtain ⟨row, col, h1, h2, h3, -⟩ := scan_first_peak m c s hscan hpos
  exact ⟨s, hs, row, col, h1, h2, h3⟩

/-- C3, on the scenario heatmap: the scan ends on row 0, column 1. -/
theorem scan_finds_first_peak_witness :
    scenarioHeatmap.WF ∧
    (∃ h w, h < scenarioHeatmap.height ∧ w < scenarioHeatmap.width ∧
      -FLT_MAX < scenarioHeatmap.score 0 h w) ∧
    ∃ s, scanChannel scenarioHeatmap 0 = .ok s ∧ PeakIsFirstMax scenarioHeatmap 0 s ∧
      s.max_pos_h = 0 ∧ s.max_pos_w = 1 := by
  have hpos : ∃ h w, h < scenarioHeatmap.height ∧ w < scenarioHeatmap.width ∧
      -FLT_MAX < scenarioHeatmap.score 0 h w :=
    ⟨0, 0, by decide, by decide, by norm_num [Mat.score, scenarioHeatmap, FLT_MAX]⟩
  obtain ⟨s, hs, hp⟩ := scan_finds_first_peak scenarioHeatmap 0 scenarioHeatmap_wf
    (by decide) hpos
  refine ⟨scenarioHeatmap_wf, hpos, s, hs, hp, ?_⟩
  obtain ⟨row, col, hr, hcl, hpk⟩ := hp
  obtain ⟨e1, e2⟩ := isFirstPeak_unique _ _ _ _ _ _ hpk scenarioHeatmap_peak
  subst e1 e2
  exact ⟨by simpa using hr, by simpa using hcl⟩

/-- C3 fails as stated: on the one-pixel plane whose score is `-FLT_MAX` (with `H = W = 1`)
the scan ends on `(-1, -1)`, which is no position of the plane. -/
theorem scan_floor_plane_has_no_peak :
    floorHeatmap.WF ∧ floorHeatmap.NoScoreBelowMin ∧
    0 < floorHeatmap.height ∧ 0 < floorHeatmap.width ∧ 0 < floorHeatmap.channel ∧
    ∃ s, scanChannel floorHeatmap 0 = .ok s ∧ s.max_pos_h = -1 ∧ s.max_pos_w = -1 ∧
      ¬ PeakIsFirstMax floorHeatmap 0 s := by
  refine ⟨floorHeatmap_wf, ?_, by decide, by decide, by decide, _, floor_scan, rfl, rfl, ?_⟩
  · intro x hx
    simp only [floorHeatmap, List.mem_singleton] at hx
    exact le_of_eq hx.symm
  · rintro ⟨row, col, hr, -, -⟩
    simp only at hr
    omega


/-! ## Keypoints, detection and bones -/

/-- C4, as the code has it: on a readable heatmap, for a channel `c` whose row-major-first
maximum sits at `(row, col)`, is at least the threshold and is above `-FLT_MAX`, the keypoint
that `GenerateSkeleton` emits for `c` is `(col * scale_w, row * scale_h)` with
`scale_h = originalHeight / H` and `scale_w = originalWidth / W`, which is `(col, row)` when
both factors are 1. -/
theorem detected_keypoint_is_scaled_peak (d : SkeletonDetector) (out : SkeletonDetectorOutput)
    (m : Mat) (thr : ℚ) (c row col : Nat) (hwf : m.WF) (hc : c < m.channel)
    (hpeak : IsFirstPeak m c row col) (hthr : thr ≤ m.score c row col)
    (hmin : -FLT_MAX < m.score c row col) :
    (LinesInRange d.lines m.channel → ∃ out', GenerateSkeleton d out m thr = .ok out') ∧
    ∀ out', GenerateSkeleton d out m thr = .ok out' →
      out'.keypoints.key_points[c]? =
        some ((col : ℚ) * ((d.orig_input_width : ℚ) / (m.width : ℚ)),
              (row : ℚ) * ((d.orig_input_height : ℚ) / (m.height : ℚ))) ∧
      ((d.orig_input_height : ℚ) / (m.height : ℚ) = 1 →
        (d.orig_input_width : ℚ) / (m.width : ℚ) = 1 →
        out'.keypoints.key_points[c]? = some ((col : ℚ), (row : ℚ))) := by
  obtain ⟨st, -, hinv, hrun, hout⟩ := GenerateSkeleton_run d out m thr hwf
  refine ⟨fun hl => ⟨_, hrun hl⟩, ?_⟩
  intro out' h
  obtain ⟨s, hs, hkp, -, -⟩ := hinv.2.2.2 c hc
  obtain ⟨s', hs', hscan⟩ := scanChannel_spec m c hwf hc
  have hss : s' = s := by rw [hs] at hs'; cases hs'; rfl
  subst hss
  obtain ⟨r', c', hr, hcl, hpk, hval⟩ :=
    scan_first_peak m c s' hscan ⟨row, col, hpeak.1, hpeak.2.1, hmin⟩
  obtain ⟨e1, e2⟩ := isFirstPeak_unique _ _ _ _ _ _ hpk hpeak
  subst e1 e2
  have hnot : ¬ s'.max_val < thr := by rw [hval]; exact not_lt.mpr hthr
  rw [(hout out' h).1, hkp]
  unfold emittedKeypoint
  simp only [hnot, if_false, hr, hcl, Int.cast_natCast]
  by_cases hsc : (d.orig_input_height : ℚ) / (m.height : ℚ) = 1
  · by_cases hsw : (d.orig_input_width : ℚ) / (m.width : ℚ) = 1
    · simp [hsc, hsw]
    · simp [hsc, hsw]
  · simp [hsc]

/-- C4, on the scenario: one channel `[[0.1, 0.9], [0.2, 0.05]]`, threshold 0.5, original size
4 by 4 gives the keypoint `(2, 0)`. -/
theorem detected_keypoint_is_scaled_peak_witness :
    scenarioHeatmap.WF ∧ IsFirstPeak scenarioHeatmap 0 0 1 ∧
    (1/2 : ℚ) ≤ scenarioHeatmap.score 0 0 1 ∧ -FLT_MAX < scenarioHeatmap.score 0 0 1 ∧
    ∃ out', GenerateSkeleton scenarioDetector CreateSDKOutput scenarioHeatmap (1/2) = .ok out' ∧
      out'.keypoints.key_points[0]? = some ((2 : ℚ), (0 : ℚ)) := by
  have h1 : (1/2 : ℚ) ≤ scenarioHeatmap.score 0 0 1 := by
    norm_num [Mat.score, scenarioHeatmap]
  have h2 : -FLT_MAX < scenarioHeatmap.score 0 0 1 := by
    norm_num [Mat.score, scenarioHeatmap, FLT_MAX]
  have key := detected_keypoint_is_scaled_peak scenarioDetector CreateSDKOutput
    scenarioHeatmap (1/2) 0 0 1 scenarioHeatmap_wf (by decide) scenarioHeatmap_peak h1 h2
  refine ⟨scenarioHeatmap_wf, scenarioHeatmap_peak, h1, h2, _, scenario_run, ?_⟩
  rw [(key.2 _ scenario_run).1]
  norm_num [scenarioDetector, scenarioHeatmap]

/-- C4 fails as stated: one channel of one pixel with score `-FLT_MAX`, threshold `-FLT_MAX`
and original size 2 by 2. The maximum reaches the threshold and its position is `(0, 0)`, so
the claim gives the keypoint `(0 * 2, 0 * 2)`; the code emits `(-2, -2)`. -/
theorem floor_keypoint_is_not_scaled_peak :
    floorHeatmap.WF ∧ IsFirstPeak floorHeatmap 0 0 0 ∧
    (-FLT_MAX : ℚ) ≤ floorHeatmap.score 0 0 0 ∧
    ∃ out', GenerateSkeleton floorDetector CreateSDKOutput floorHeatmap (-FLT_MAX) = .ok out' ∧
      out'.keypoints.key_points[0]? = some ((-2 : ℚ), (-2 : ℚ)) ∧
      out'.keypoints.key_points[0]? ≠
        some (((0 : Nat) : ℚ) * ((floorDetector.orig_input_width : ℚ) / (floorHeatmap.width : ℚ)),
              ((0 : Nat) : ℚ) *
                ((floorDetector.orig_input_height : ℚ) / (floorHeatmap.height : ℚ))) := by
  refine ⟨floorHeatmap_wf, ?_, ?_, _, floor_run, rfl, ?_⟩
  · refine ⟨by decide, by decide, ⟨⟨0, 0, by decide, by decide, rfl⟩, ?_⟩, ?_⟩
    · intro h w hh hw
      simp only [floorHeatmap] at hh hw
      interval_cases h; interval_cases w
      exact le_refl _
    · intro h w hh hw hb
      simp only [floorHeatmap] at hh hw
      omega
  · norm_num [Mat.score, floorHeatmap]
  · norm_num

/-- C6: on a readable heatmap, with bone pairs that index channels and an output object whose
bone list is empty (a freshly created one), `GenerateSkeleton` returns and the bone list it
leaves is the list of bone pairs of the detector filtered, in order, by both endpoints being
flagged detected, where channel `c` is flagged exactly when its stored confidence reaches the
threshold; so it is a sublist of the bone pairs. -/
theorem fresh_decode_filters_lines (d : SkeletonDetector) (out : SkeletonDetectorOutput)
    (m : Mat) (thr : ℚ) (hwf : m.WF) (hl : LinesInRange d.lines m.channel)
    (hfresh : out.keypoints.lines = []) :
    ∃ st out', decodeChannels d out m thr = .ok st ∧
      GenerateSkeleton d out m thr = .ok out' ∧
      out'.keypoints.lines =
        d.lines.filter (fun l => flagAt st.detected l.1 && flagAt st.detected l.2) ∧
      List.Sublist out'.keypoints.lines d.lines ∧
      ∀ c, c < m.channel → ∃ v, out'.confidence_list[c]? = some v ∧
        st.detected[c]? = some (decide (thr ≤ v)) := by
  obtain ⟨st, hst, hinv, hrun, hout⟩ := GenerateSkeleton_run d out m thr hwf
  refine ⟨st, _, hst, hrun hl, by simp [hfresh], ?_, ?_⟩
  · simp only [hfresh, List.nil_append]
    exact List.filter_sublist _
  · intro c hc
    obtain ⟨s, -, -, hconf, hdet⟩ := hinv.2.2.2 c hc
    exact ⟨s.max_val, hconf, hdet⟩

/-- C6, on the scenarios: two channels above the threshold and the bone `(0, 1)` give the
bone list `[(0, 1)]`; with channel 1 below the threshold the bone list is empty. -/
theorem fresh_decode_filters_lines_witness :
    twoJointHeatmap.WF ∧ LinesInRange twoJointDetector.lines twoJointHeatmap.channel ∧
    CreateSDKOutput.keypoints.lines = [] ∧
    (∃ st out', decodeChannels twoJointDetector CreateSDKOutput twoJointHeatmap (1/2) = .ok st ∧
      GenerateSkeleton twoJointDetector CreateSDKOutput twoJointHeatmap (1/2) = .ok out' ∧
      out'.keypoints.lines =
        twoJointDetector.lines.filter
          (fun l => flagAt st.detected l.1 && flagAt st.detected l.2) ∧
      out'.keypoints.lines = [(0, 1)]) ∧
    (∃ out', GenerateSkeleton twoJointDetector CreateSDKOutput twoJointWeakHeatmap (1/2)
        = .ok out' ∧ out'.keypoints.lines = []) := by
  have hl : LinesInRange twoJointDetector.lines twoJointHeatmap.channel := by
    intro l hl
    simp only [twoJointDetector, List.mem_singleton] at hl
    subst hl
    simp [twoJointHeatmap]
  obtain ⟨st, out', hst, hgs, hlines, -, -⟩ :=
    fresh_decode_filters_lines twoJointDetector CreateSDKOutput twoJointHeatmap (1/2)
      twoJointHeatmap_wf hl rfl
  refine ⟨twoJointHeatmap_wf, hl, rfl, ⟨st, out', hst, hgs, hlines, ?_⟩,
    ⟨_, twoJointWeak_run, rfl⟩⟩
  rw [twoJoint_run] at hgs
  cases hgs
  rfl



/-! ## Reuse of an output object -/

/-- C7, evaluated: the output of a decode in which both joints are detected is decoded into
again with a heatmap whose channel 1 is below the threshold. Keypoint 1 is now absent, and
the bone `(0, 1)` of the first decode is still in the bone list. -/
theorem reused_output_keeps_stale_bone :
    ∃ out1 out2,
      GenerateSkeleton twoJointDetector CreateSDKOutput twoJointHeatmap (1/2) = .ok out1 ∧
      GenerateSkeleton twoJointDetector out1 twoJointWeakHeatmap (1/2) = .ok out2 ∧
      out2.keypoints.key_points[1]? = some ((-1 : ℚ), (-1 : ℚ)) ∧
      out2.confidence_list[1]? = some (1/10) ∧
      ((0 : Int), (1 : Int)) ∈ out2.keypoints.lines := by
  refine ⟨_, { mat_map := [],
               keypoints := { key_points := [(0, 0), (-1, -1)], lines := [(0, 1)],
                              image_width := 1, image_height := 1 },
               confidence_list := [9/10, 1/10] }, twoJoint_run, ?_, rfl, rfl, by simp⟩
  norm_num [GenerateSkeleton, decodeChannels, forLoop, forLoopFrom, decodeChannel, scanChannel,
    scanPixel, scanInit, assembleLines, detectedAt, resize, List.replicate, twoJointDetector,
    twoJointWeakHeatmap, FLT_MAX, INT_MAX]

/-- C8, evaluated: the same heatmap and configuration decoded a second time into the output
of the first decode. The first decode leaves the bone list `[(0, 1)]`, the second leaves
`[(0, 1), (0, 1)]`. -/
theorem second_decode_repeats_bones :
    ∃ out1 out2,
      GenerateSkeleton twoJointDetector CreateSDKOutput twoJointHeatmap (1/2) = .ok out1 ∧
      GenerateSkeleton twoJointDetector out1 twoJointHeatmap (1/2) = .ok out2 ∧
      out1.keypoints.lines = [(0, 1)] ∧
      out2.keypoints.lines = [(0, 1), (0, 1)] ∧
      out2.keypoints.key_points = out1.keypoints.key_points ∧
      out2.confidence_list = out1.confidence_list ∧
      out2 ≠ out1 := by
  refine ⟨_, { mat_map := [],
               keypoints := { key_points := [(0, 0), (0, 0)], lines := [(0, 1), (0, 1)],
                              image_width := 1, image_height := 1 },
               confidence_list := [9/10, 8/10] }, twoJoint_run, ?_, rfl, rfl, rfl, rfl, ?_⟩
  · norm_num [GenerateSkeleton, decodeChannels, forLoop, forLoopFrom, decodeChannel,
      scanChannel, scanPixel, scanInit, assembleLines, detectedAt, resize, List.replicate,
      twoJointDetector, twoJointHeatmap, FLT_MAX, INT_MAX]
  · intro h
    have := congrArg (fun o => o.keypoints.lines.length) h
    simp at this

/-! ## Errors of `ProcessSDKOutput` -/

/-- C9: `ProcessSDKOutput` reports `TNNERR_PARAM_ERR` exactly when the stored option is not a
`SkeletonDetectorOption`, or the output object is not a `SkeletonDetectorOutput`, or the
output holds no mat named `heatmap`; it then returns without a fault and leaves the output
object as it was. Otherwise its result is that of `GenerateSkeleton` on the heatmap with the
option's `min_threshold`, returned with `TNN_OK`, and that decode does return on a readable
heatmap with bone pairs that index channels. -/
theorem ProcessSDKOutput_param_error_iff (d : SkeletonDetector)
    (output_ : Option TNNSDKOutput) :
    (ParamInvalid d output_ →
      ∃ msg, ProcessSDKOutput d output_ =
        .ok ({ code := .TNNERR_PARAM_ERR, message := msg }, output_)) ∧
    (¬ ParamInvalid d output_ →
      ∃ option output heatmap,
        d.option_ = some (.skeleton option) ∧ output_ = some (.skeleton output) ∧
        GetMat output.mat_map "heatmap" = some heatmap ∧
        (∀ out', GenerateSkeleton d output heatmap option.min_threshold = .ok out' →
          ProcessSDKOutput d output_ =
            .ok ({ code := .TNN_OK, message := "" }, some (.skeleton out'))) ∧
        (∀ e, GenerateSkeleton d output heatmap option.min_threshold = .error e →
          ProcessSDKOutput d output_ = .error e) ∧
        (heatmap.WF → LinesInRange d.lines heatmap.channel →
          ∃ out', GenerateSkeleton d output heatmap option.min_threshold = .ok out')) ∧
    (∀ st o, ProcessSDKOutput d output_ = .ok (st, o) →
      (st.code = .TNNERR_PARAM_ERR ↔ ParamInvalid d output_)) := by
  unfold ParamInvalid ProcessSDKOutput
  rcases hopt : d.option_ with _ | _ | option
  · exact ⟨fun _ => ⟨_, rfl⟩, fun h => absurd (Or.inl (by simp)) h,
      fun st o h => by cases h; simp⟩
  · exact ⟨fun _ => ⟨_, rfl⟩, fun h => absurd (Or.inl (by simp)) h,
      fun st o h => by cases h; simp⟩
  rcases output_ with _ | mats | output
  · exact ⟨fun _ => ⟨_, rfl⟩, fun h => absurd (Or.inr (Or.inl (by simp))) h,
      fun st o h => by cases h; simp⟩
  · exact ⟨fun _ => ⟨_, rfl⟩, fun h => absurd (Or.inr (Or.inl (by simp))) h,
      fun st o h => by cases h; simp⟩
  dsimp only
  cases hmat : GetMat output.mat_map "heatmap" with
  | none =>
    dsimp only
    exact ⟨fun _ => ⟨_, rfl⟩, fun h => absurd (Or.inr (Or.inr ⟨output, rfl, hmat⟩)) h,
      fun st o h => by cases h; simp [hmat]⟩
  | some heatmap =>
    dsimp only
    have hvalid : ¬ ((∀ o, some (TNNSDKOption.skeleton option) ≠ some (.skeleton o)) ∨
        (∀ o, some (TNNSDKOutput.skeleton output) ≠ some (.skeleton o)) ∨
        (∃ o, some (TNNSDKOutput.skeleton output) = some (.skeleton o) ∧
          GetMat o.mat_map "heatmap" = none)) := by
      rintro (h | h | ⟨o, ho, hn⟩)
      · exact h option rfl
      · exact h output rfl
      · cases ho; rw [hmat] at hn; cases hn
    refine ⟨fun h => absurd h hvalid, fun _ => ?_, ?_⟩
    · refine ⟨option, output, heatmap, rfl, rfl, hmat, ?_, ?_, ?_⟩
      · intro out' h; simp only [h]
      · intro e h; simp only [h]
      · intro hwf hl
        obtain ⟨st, -, -, hrun, -⟩ :=
          GenerateSkeleton_run d output heatmap option.min_threshold hwf
        exact ⟨_, hrun hl⟩
    · intro st o h
      cases hgs : GenerateSkeleton d output heatmap option.min_threshold with
      | error e => simp [hgs] at h
      | ok out' =>
        simp only [hgs, Except.ok.injEq, Prod.mk.injEq] at h
        obtain ⟨rfl, -⟩ := h
        simp [hmat]


/-- C9, on concrete calls: with the null pointer as output object the call reports
`TNNERR_PARAM_ERR` and leaves the pointer as it was; with a `SkeletonDetectorOutput` that
holds the mat `heatmap` it decodes and reports `TNN_OK`. -/
theorem ProcessSDKOutput_param_error_iff_witness :
    ParamInvalid twoJointDetector none ∧
    (∃ msg, ProcessSDKOutput twoJointDetector none =
      .ok ({ code := .TNNERR_PARAM_ERR, message := msg }, none)) ∧
    ¬ ParamInvalid twoJointDetector (some (.skeleton heatmapOutput)) ∧
    (∃ out', ProcessSDKOutput twoJointDetector (some (.skeleton heatmapOutput)) =
      .ok ({ code := .TNN_OK, message := "" }, some (.skeleton out'))) := by
  have hbad : ParamInvalid twoJointDetector none := Or.inr (Or.inl (by simp))
  have hmat : GetMat heatmapOutput.mat_map "heatmap" = some twoJointHeatmap := by
    simp [GetMat, heatmapOutput, List.lookup]
  have hgood : ¬ ParamInvalid twoJointDetector (some (.skeleton heatmapOutput)) := by
    rintro (h | h | ⟨o, ho, hn⟩)
    · exact h _ rfl
    · exact h _ rfl
    · cases ho; rw [hmat] at hn; cases hn
  refine ⟨hbad, (ProcessSDKOutput_param_error_iff twoJointDetector none).1 hbad, hgood, ?_⟩
  obtain ⟨option, output, heatmap, -, hout, hm, hok, -, hrun⟩ :=
    (ProcessSDKOutput_param_error_iff twoJointDetector (some (.skeleton heatmapOutput))).2.1
      hgood
  cases hout
  rw [hmat] at hm
  cases hm
  have hl : LinesInRange twoJointDetector.lines twoJointHeatmap.channel := by
    intro l hl
    simp only [twoJointDetector, List.mem_singleton] at hl
    subst hl
    simp [twoJointHeatmap]
  obtain ⟨out', h⟩ := hrun twoJointHeatmap_wf hl
  exact ⟨out', hok out' h⟩

/-- C10 fails as stated: on a detector on which `ProcessSDKInputMat` has never run,
`ProcessSDKOutput` reports `TNN_OK` and leaves a full Skeleton in the output object. -/
theorem decode_without_recorded_size_succeeds :
    ProcessSDKOutput unusedDetector (some (.skeleton heatmapOutput)) =
      .ok ({ code := .TNN_OK, message := "" },
        some (.skeleton
          { mat_map := [("heatmap", twoJointHeatmap)],
            keypoints := { key_points := [(0, 0), (0, 0)], lines := [(0, 1)],
                           image_width := 0, image_height := 0 },
            confidence_list := [9/10, 8/10] })) := by
  have hmat : GetMat heatmapOutput.mat_map "heatmap" = some twoJointHeatmap := by
    simp [GetMat, heatmapOutput, List.lookup]
  have hgs : GenerateSkeleton unusedDetector heatmapOutput twoJointHeatmap (1/2) =
      .ok { mat_map := [("heatmap", twoJointHeatmap)],
            keypoints := { key_points := [(0, 0), (0, 0)], lines := [(0, 1)],
                           image_width := 0, image_height := 0 },
            confidence_list := [9/10, 8/10] } := by
    norm_num [GenerateSkeleton, decodeChannels, forLoop, forLoopFrom, decodeChannel,
      scanChannel, scanPixel, scanInit, assembleLines, detectedAt, resize, List.replicate,
      unusedDetector, heatmapOutput, twoJointHeatmap, FLT_MAX, INT_MAX]
  simp only [ProcessSDKOutput, unusedDetector, hmat]
  simp only [unusedDetector] at hgs
  simp only [hgs]

/-- C10, as the code has it: `ProcessSDKOutput` does not look at whether an original image
size was recorded. For every state of the detector, with a `SkeletonDetectorOption` stored,
a `SkeletonDetectorOutput` that holds a readable mat `heatmap` and bone pairs that index
channels, it reports `TNN_OK` and leaves the Skeleton that `GenerateSkeleton` computes from
the values the dimension members hold, which it reports as the image size. -/
theorem decode_does_not_check_recorded_size (d : SkeletonDetector)
    (option : SkeletonDetectorOption) (output : SkeletonDetectorOutput) (heatmap : Mat)
    (hopt : d.option_ = some (.skeleton option))
    (hmat : GetMat output.mat_map "heatmap" = some heatmap)
    (hwf : heatmap.WF) (hl : LinesInRange d.lines heatmap.channel) :
    ∃ out', ProcessSDKOutput d (some (.skeleton output)) =
        .ok ({ code := .TNN_OK, message := "" }, some (.skeleton out')) ∧
      GenerateSkeleton d output heatmap option.min_threshold = .ok out' ∧
      out'.keypoints.image_width = d.orig_input_width ∧
      out'.keypoints.image_height = d.orig_input_height ∧
      out'.keypoints.key_points.length = heatmap.channel := by
  obtain ⟨st, -, hinv, hrun, hout⟩ :=
    GenerateSkeleton_run d output heatmap option.min_threshold hwf
  have hgs := hrun hl
  refine ⟨_, ?_, hgs, rfl, rfl, hinv.1⟩
  simp only [ProcessSDKOutput, hopt, hmat, hgs]

/-- C10, on the detector on which `ProcessSDKInputMat` has never run: the decode reports
`TNN_OK` and the Skeleton carries the unrecorded size 0 by 0. -/
theorem decode_does_not_check_recorded_size_witness :
    unusedDetector.option_ =
      some (.skeleton { input_width := 1, input_height := 1, min_threshold := 1/2 }) ∧
    GetMat heatmapOutput.mat_map "heatmap" = some twoJointHeatmap ∧
    twoJointHeatmap.WF ∧ LinesInRange unusedDetector.lines twoJointHeatmap.channel ∧
    ∃ out', ProcessSDKOutput unusedDetector (some (.skeleton heatmapOutput)) =
        .ok ({ code := .TNN_OK, message := "" }, some (.skeleton out')) ∧
      out'.keypoints.image_width = 0 ∧ out'.keypoints.image_height = 0 ∧
      out'.keypoints.key_points.length = 2 := by
  have hmat : GetMat heatmapOutput.mat_map "heatmap" = some twoJointHeatmap := by
    simp [GetMat, heatmapOutput, List.lookup]
  have hl : LinesInRange unusedDetector.lines twoJointHeatmap.channel := by
    intro l hl
    simp only [unusedDetector, List.mem_singleton] at hl
    subst hl
    simp [twoJointHeatmap]
  obtain ⟨out', h1, -, h3, h4, h5⟩ :=
    decode_does_not_check_recorded_size unusedDetector _ heatmapOutput twoJointHeatmap rfl
      hmat twoJointHeatmap_wf hl
  exact ⟨rfl, hmat, twoJointHeatmap_wf, hl, out', h1, h3, h4, h5⟩

/-! ## Input conversion, remembered size and the two rescaling paths -/

/-- C13: `GetConvertParamForInput` returns, for every tag and every state of the detector, the
same parameters: a scale array and a bias array of four entries each, the first three being
the constants for R, G, B (scale 0.01712475, 0.017507, 0.01742919; bias -2.11790393,
-2.03571429, -1.80444444) and the fourth being 0 in both. -/
theorem GetConvertParamForInput_fixed (d : SkeletonDetector) (tag : String) :
    (GetConvertParamForInput d tag).scale =
      [1712475/100000000, 17507/1000000, 1742919/100000000, 0] ∧
    (GetConvertParamForInput d tag).bias =
      [-211790393/100000000, -203571429/100000000, -180444444/100000000, 0] ∧
    (GetConvertParamForInput d tag).scale.length = 4 ∧
    (GetConvertParamForInput d tag).bias.length = 4 ∧
    (GetConvertParamForInput d tag).scale[3]? = some 0 ∧
    (GetConvertParamForInput d tag).bias[3]? = some 0 ∧
    ∀ (d' : SkeletonDetector) (tag' : String),
      GetConvertParamForInput d' tag' = GetConvertParamForInput d tag :=
  ⟨rfl, rfl, rfl, rfl, rfl, rfl, fun _ _ => rfl⟩

theorem foldl_ProcessSDKInputMat_members (imgs : List Mat) :
    ∀ d : SkeletonDetector,
      (List.foldl ProcessSDKInputMat d imgs).option_ = d.option_ ∧
      (List.foldl ProcessSDKInputMat d imgs).lines = d.lines := by
  induction imgs with
  | nil => intro d; exact ⟨rfl, rfl⟩
  | cons im rest ih =>
    intro d
    simp only [List.foldl_cons]
    exact ih (ProcessSDKInputMat d im)

theorem foldl_ProcessSDKInputMat_last (d : SkeletonDetector) (imgs : List Mat) (last : Mat) :
    List.foldl ProcessSDKInputMat d (imgs ++ [last]) = ProcessSDKInputMat d last := by
  obtain ⟨h1, h2⟩ := foldl_ProcessSDKInputMat_members imgs d
  simp only [List.foldl_append, List.foldl_cons, List.foldl_nil]
  show ({ option_ := (List.foldl ProcessSDKInputMat d imgs).option_,
          orig_input_height := (last.height : Int),
          orig_input_width := (last.width : Int),
          lines := (List.foldl ProcessSDKInputMat d imgs).lines } : SkeletonDetector) =
    ProcessSDKInputMat d last
  rw [h1, h2]
  rfl

/-- C12: after any sequence of `ProcessSDKInputMat` calls the detector is in the state that
the last call alone would leave (each call overwrites the remembered size), so the decode
that follows computes its scale factors from the last image only, and the Skeleton it leaves
reports the width and height of that last image. -/
theorem decode_reports_last_input_size (d : SkeletonDetector) (imgs : List Mat) (last : Mat)
    (out : SkeletonDetectorOutput) (m : Mat) (thr : ℚ) :
    List.foldl ProcessSDKInputMat d (imgs ++ [last]) = ProcessSDKInputMat d last ∧
    (List.foldl ProcessSDKInputMat d (imgs ++ [last])).orig_input_width = (last.width : Int) ∧
    (List.foldl ProcessSDKInputMat d (imgs ++ [last])).orig_input_height = (last.height : Int) ∧
    GenerateSkeleton (List.foldl ProcessSDKInputMat d (imgs ++ [last])) out m thr =
      GenerateSkeleton (ProcessSDKInputMat d last) out m thr ∧
    (∀ out', GenerateSkeleton (List.foldl ProcessSDKInputMat d (imgs ++ [last])) out m thr
        = .ok out' →
      out'.keypoints.image_width = (last.width : Int) ∧
      out'.keypoints.image_height = (last.height : Int)) ∧
    (m.WF → LinesInRange d.lines m.channel →
      ∃ out', GenerateSkeleton (List.foldl ProcessSDKInputMat d (imgs ++ [last])) out m thr
        = .ok out') := by
  have hlast := foldl_ProcessSDKInputMat_last d imgs last
  rw [hlast]
  refine ⟨rfl, rfl, rfl, rfl, ?_, ?_⟩
  · intro out' h
    cases hdc : decodeChannels (ProcessSDKInputMat d last) out m thr with
    | error e => simp [GenerateSkeleton, hdc] at h
    | ok st =>
      obtain ⟨lines, -, rfl⟩ :=
        (GenerateSkeleton_of_decode (ProcessSDKInputMat d last) out m thr st hdc out').mp h
      exact ⟨rfl, rfl⟩
  · intro hwf hl
    obtain ⟨st, -, -, hrun, -⟩ := GenerateSkeleton_run (ProcessSDKInputMat d last) out m thr hwf
    exact ⟨_, hrun hl⟩

/-- C12, on two input images: after an image of 640 by 480 and then one of 4 by 4, the decode
of the scenario heatmap reports the size 4 by 4 and emits the keypoint `(2, 0)` of the scale
factor `4 / 2`. -/
theorem decode_reports_last_input_size_witness :
    scenarioHeatmap.WF ∧ LinesInRange scenarioDetector.lines scenarioHeatmap.channel ∧
    ∃ out', GenerateSkeleton
        (List.foldl ProcessSDKInputMat scenarioDetector ([firstImage] ++ [lastImage]))
        CreateSDKOutput scenarioHeatmap (1/2) = .ok out' ∧
      out'.keypoints.image_width = 4 ∧ out'.keypoints.image_height = 4 ∧
      out'.keypoints.key_points = [((2 : ℚ), (0 : ℚ))] := by
  have hl : LinesInRange scenarioDetector.lines scenarioHeatmap.channel := by
    intro l hl
    simp [scenarioDetector] at hl
  have key := decode_reports_last_input_size scenarioDetector [firstImage] lastImage
    CreateSDKOutput scenarioHeatmap (1/2)
  obtain ⟨out', h⟩ := key.2.2.2.2.2 scenarioHeatmap_wf hl
  obtain ⟨hw, hh⟩ := key.2.2.2.2.1 out' h
  refine ⟨scenarioHeatmap_wf, hl, out', h, by simpa [lastImage] using hw,
    by simpa [lastImage] using hh, ?_⟩
  rw [key.2.2.2.1] at h
  have hd : ProcessSDKInputMat scenarioDetector lastImage = scenarioDetector := by
    simp [ProcessSDKInputMat, scenarioDetector, lastImage]
  rw [hd, scenario_run] at h
  cases h
  rfl

theorem scenario_scan :
    scanChannel scenarioHeatmap 0 =
      .ok { idx := 4, max_pos_h := 0, max_pos_w := 1, max_val := 9/10 } := by
  norm_num [scanChannel, forLoop, forLoopFrom, scanPixel, scanInit, scenarioHeatmap, FLT_MAX,
    INT_MAX]

theorem twoJoint_scan :
    scanChannel twoJointHeatmap 1 =
      .ok { idx := 1, max_pos_h := 0, max_pos_w := 0, max_val := 8/10 } := by
  norm_num [scanChannel, forLoop, forLoopFrom, scanPixel, scanInit, twoJointHeatmap, FLT_MAX,
    INT_MAX]

/-- C11: the two coordinate paths agree. The unscaled result `(col, row)` is the multiplied
result for factors 1. In `GenerateSkeleton`, for a channel that reaches the threshold and
whose scan ended on `(row, col)`, the keypoint is the unscaled result when `scale_h` and
`scale_w` are both 1 and the multiplied result `(col * scale_w, row * scale_h)` when either
differs from 1, so in both cases it equals the multiplied result; the body of the channel loop
takes the unscaled path exactly when `coord_need_scale` is false. -/
theorem rescale_paths_agree (d : SkeletonDetector) (out : SkeletonDetectorOutput) (m : Mat)
    (thr : ℚ) (c : Nat) (hwf : m.WF) (hc : c < m.channel) :
    (∀ row col : Int, rescaleUnscaled row col = rescaleMultiplied row col 1 1) ∧
    ∃ s, scanChannel m c = .ok s ∧
      (∀ (sh sw : ℚ) (st : DecodeState), thr ≤ s.max_val →
        (∃ st', decodeChannel m thr sh sw false c st = .ok st' ∧
          st'.key_points = st.key_points.set c (rescaleUnscaled s.max_pos_h s.max_pos_w)) ∧
        (∃ st', decodeChannel m thr sh sw true c st = .ok st' ∧
          st'.key_points =
            st.key_points.set c (rescaleMultiplied s.max_pos_h s.max_pos_w sh sw))) ∧
      (LinesInRange d.lines m.channel → ∃ out', GenerateSkeleton d out m thr = .ok out') ∧
      ∀ out', GenerateSkeleton d out m thr = .ok out' → thr ≤ s.max_val →
        (((d.orig_input_height : ℚ) / (m.height : ℚ) = 1 ∧
            (d.orig_input_width : ℚ) / (m.width : ℚ) = 1) →
          out'.keypoints.key_points[c]? =
            some (rescaleUnscaled s.max_pos_h s.max_pos_w)) ∧
        (¬ ((d.orig_input_height : ℚ) / (m.height : ℚ) = 1 ∧
            (d.orig_input_width : ℚ) / (m.width : ℚ) = 1) →
          out'.keypoints.key_points[c]? =
            some (rescaleMultiplied s.max_pos_h s.max_pos_w
              ((d.orig_input_height : ℚ) / (m.height : ℚ))
              ((d.orig_input_width : ℚ) / (m.width : ℚ)))) ∧
        out'.keypoints.key_points[c]? =
          some (rescaleMultiplied s.max_pos_h s.max_pos_w
            ((d.orig_input_height : ℚ) / (m.height : ℚ))
            ((d.orig_input_width : ℚ) / (m.width : ℚ))) := by
  refine ⟨fun row col => by simp [rescaleUnscaled, rescaleMultiplied], ?_⟩
  obtain ⟨st, -, hinv, hrun, hout⟩ := GenerateSkeleton_run d out m thr hwf
  obtain ⟨s, hs, hkp, -, -⟩ := hinv.2.2.2 c hc
  refine ⟨s, hs, ?_, fun hl => ⟨_, hrun hl⟩, ?_⟩
  · intro sh sw st0 hthr
    have hnot : ¬ s.max_val < thr := not_lt.mpr hthr
    constructor
    · refine ⟨_, decodeChannel_ok m thr sh sw false c st0 s hs, ?_⟩
      simp [emittedKeypoint, hnot, rescaleUnscaled]
    · refine ⟨_, decodeChannel_ok m thr sh sw true c st0 s hs, ?_⟩
      simp [emittedKeypoint, hnot, rescaleMultiplied]
  · intro out' h hthr
    have hnot : ¬ s.max_val < thr := not_lt.mpr hthr
    rw [(hout out' h).1, hkp]
    unfold emittedKeypoint rescaleUnscaled rescaleMultiplied
    simp only [hnot, if_false]
    by_cases hsh : (d.orig_input_height : ℚ) / (m.height : ℚ) = 1
    · by_cases hsw : (d.orig_input_width : ℚ) / (m.width : ℚ) = 1
      · simp [hsh, hsw]
      · simp [hsh, hsw]
    · simp [hsh]

/-- C11, on both paths: with the original size 4 by 4 on a 2 by 2 heatmap the factors are 2
and the peak `(0, 1)` goes to `(2, 0)`; with the original size 1 by 1 on 1 by 1 planes the
factors are 1 and the peak `(0, 0)` goes to `(0, 0)` unscaled. -/
theorem rescale_paths_agree_witness :
    (scenarioHeatmap.WF ∧
      ∃ out', GenerateSkeleton scenarioDetector CreateSDKOutput scenarioHeatmap (1/2)
          = .ok out' ∧
        out'.keypoints.key_points[0]? = some (rescaleMultiplied 0 1 2 2) ∧
        rescaleMultiplied 0 1 2 2 = ((2 : ℚ), (0 : ℚ))) ∧
    (twoJointHeatmap.WF ∧
      ∃ out', GenerateSkeleton twoJointDetector CreateSDKOutput twoJointHeatmap (1/2)
          = .ok out' ∧
        out'.keypoints.key_points[1]? = some (rescaleUnscaled 0 0) ∧
        rescaleUnscaled 0 0 = rescaleMultiplied 0 0 1 1) := by
  constructor
  · obtain ⟨-, s, hs, -, -, hkp⟩ :=
      rescale_paths_agree scenarioDetector CreateSDKOutput scenarioHeatmap (1/2) 0
        scenarioHeatmap_wf (by decide)
    rw [scenario_scan] at hs
    cases hs
    have h := (hkp _ scenario_run (by norm_num)).2.2
    refine ⟨scenarioHeatmap_wf, _, scenario_run, ?_, by norm_num [rescaleMultiplied]⟩
    rw [h]
    norm_num [rescaleMultiplied, scenarioDetector, scenarioHeatmap]
  · obtain ⟨hagree, s, hs, -, -, hkp⟩ :=
      rescale_paths_agree twoJointDetector CreateSDKOutput twoJointHeatmap (1/2) 1
        twoJointHeatmap_wf (by decide)
    rw [twoJoint_scan] at hs
    cases hs
    have h := (hkp _ twoJoint_run (by norm_num)).1
      (by norm_num [twoJointDetector, twoJointHeatmap])
    exact ⟨twoJointHeatmap_wf, _, twoJoint_run, h, hagree 0 0⟩

/-! ## Bone indices, image bounds and the threshold -/

theorem detectedAt_out_of_range (det : List Bool) (C : Nat) (hlen : det.length = C) (i : Int)
    (h : i < 0 ∨ (C : Int) ≤ i) : detectedAt det i = .error .outOfBounds := by
  unfold detectedAt
  by_cases hneg : i < 0
  · simp [hneg]
  · have hge : det.length ≤ i.toNat := by omega
    simp [hneg, List.getElem?_eq_none hge]

/-- C15: the bone loop reads `detected[line.first]` and `detected[line.second]` unchecked.
On a readable heatmap, when every pair `(a, b)` of the bone pairs has `0 <= a < C` and
`0 <= b < C` the call returns (no read is out of bounds); when the first pair has a first
index that is negative or at least `C`, or a detected first joint and a second index that is
negative or at least `C`, the read is out of bounds: nothing in `GenerateSkeleton` checks the
indices against the channel count. -/
theorem bone_indices_are_unchecked (d : SkeletonDetector) (out : SkeletonDetectorOutput)
    (m : Mat) (thr : ℚ) (hwf : m.WF) :
    (LinesInRange d.lines m.channel → ∃ out', GenerateSkeleton d out m thr = .ok out') ∧
    (∀ a b rest, d.lines = (a, b) :: rest → (a < 0 ∨ (m.channel : Int) ≤ a) →
      GenerateSkeleton d out m thr = .error .outOfBounds) ∧
    (∀ a b rest st, d.lines = (a, b) :: rest → decodeChannels d out m thr = .ok st →
      0 ≤ a → a < (m.channel : Int) → flagAt st.detected a = true →
      (b < 0 ∨ (m.channel : Int) ≤ b) →
      GenerateSkeleton d out m thr = .error .outOfBounds) := by
  obtain ⟨st, hst, hinv, hrun, -⟩ := GenerateSkeleton_run d out m thr hwf
  refine ⟨fun hl => ⟨_, hrun hl⟩, ?_, ?_⟩
  · intro a b rest hlines ha
    unfold GenerateSkeleton
    simp only [hst, hlines, assembleLines,
      detectedAt_out_of_range st.detected m.channel hinv.2.2.1 a ha]
  · intro a b rest st' hlines hst' ha0 ha1 hflag hb
    rw [hst] at hst'
    cases hst'
    unfold GenerateSkeleton
    simp only [hst, hlines, assembleLines,
      detectedAt_ok st.detected m.channel hinv.2.2.1 a ha0 ha1, hflag,
      detectedAt_out_of_range st.detected m.channel hinv.2.2.1 b hb]

/-- C15, on two joints: the bone `(0, 1)` is in range and the call returns; the bones
`(0, 2)`, with joint 0 detected, and `(-1, 0)` make the call read out of bounds. -/
theorem bone_indices_are_unchecked_witness :
    twoJointHeatmap.WF ∧
    (LinesInRange twoJointDetector.lines twoJointHeatmap.channel ∧
      ∃ out', GenerateSkeleton twoJointDetector CreateSDKOutput twoJointHeatmap (1/2)
        = .ok out') ∧
    GenerateSkeleton wideBoneDetector CreateSDKOutput twoJointHeatmap (1/2)
      = .error .outOfBounds ∧
    GenerateSkeleton negativeBoneDetector CreateSDKOutput twoJointHeatmap (1/2)
      = .error .outOfBounds := by
  have hl : LinesInRange twoJointDetector.lines twoJointHeatmap.channel := by
    intro l hl
    simp only [twoJointDetector, List.mem_singleton] at hl
    subst hl
    simp [twoJointHeatmap]
  refine ⟨twoJointHeatmap_wf,
    ⟨hl, (bone_indices_are_unchecked twoJointDetector CreateSDKOutput twoJointHeatmap (1/2)
      twoJointHeatmap_wf).1 hl⟩, ?_, ?_⟩
  · norm_num [GenerateSkeleton, decodeChannels, forLoop, forLoopFrom, decodeChannel,
      scanChannel, scanPixel, scanInit, assembleLines, detectedAt, resize, List.replicate,
      wideBoneDetector, CreateSDKOutput, twoJointHeatmap, FLT_MAX, INT_MAX, Int.toNat]
  · exact (bone_indices_are_unchecked negativeBoneDetector CreateSDKOutput twoJointHeatmap
      (1/2) twoJointHeatmap_wf).2.1 (-1) 0 [] rfl (Or.inl (by decide))

theorem emittedKeypoint_detected (thr sh sw : ℚ) (s : PeakScan) (h : ¬ s.max_val < thr) :
    emittedKeypoint thr sh sw (decide (sh ≠ 1) || decide (sw ≠ 1)) s =
      ((s.max_pos_w : ℚ) * sw, (s.max_pos_h : ℚ) * sh) := by
  unfold emittedKeypoint
  simp only [h, if_false]
  by_cases hsh : sh = 1
  · by_cases hsw : sw = 1
    · simp [hsh, hsw]
    · simp [hsh, hsw]
  · simp [hsh]

theorem scaled_coordinate_bounds (pos dim : Nat) (orig : Int) (hpos : pos < dim)
    (horig : 0 < orig) :
    0 ≤ (pos : ℚ) * ((orig : ℚ) / (dim : ℚ)) ∧
      (pos : ℚ) * ((orig : ℚ) / (dim : ℚ)) < (orig : ℚ) := by
  have hdim : (0 : ℚ) < (dim : ℚ) := by exact_mod_cast (by omega : 0 < dim)
  have ho : (0 : ℚ) < (orig : ℚ) := by exact_mod_cast horig
  have hp : (0 : ℚ) ≤ (pos : ℚ) := by exact_mod_cast Nat.zero_le pos
  have hlt : (pos : ℚ) < (dim : ℚ) := by exact_mod_cast hpos
  have hq : (0 : ℚ) < (orig : ℚ) / (dim : ℚ) := div_pos ho hdim
  refine ⟨mul_nonneg hp (le_of_lt hq), ?_⟩
  calc (pos : ℚ) * ((orig : ℚ) / (dim : ℚ))
      < (dim : ℚ) * ((orig : ℚ) / (dim : ℚ)) := mul_lt_mul_of_pos_right hlt hq
    _ = (orig : ℚ) := by field_simp

/-- C16: in exact arithmetic, on a readable heatmap and with a remembered original width and
height above 0, for a channel `c` that holds a score above `-FLT_MAX` and whose maximum
reaches the threshold, the emitted keypoint `(x, y)` has `0 <= x < originalWidth` and
`0 <= y < originalHeight`. -/
theorem detected_keypoint_inside_image (d : SkeletonDetector) (out : SkeletonDetectorOutput)
    (m : Mat) (thr : ℚ) (c : Nat) (v : ℚ) (hwf : m.WF) (hc : c < m.channel)
    (how : 0 < d.orig_input_width) (hoh : 0 < d.orig_input_height)
    (hpos : ∃ h w, h < m.height ∧ w < m.width ∧ -FLT_MAX < m.score c h w)
    (hmax : IsPlaneMax m c v) (hthr : thr ≤ v) :
    (LinesInRange d.lines m.channel → ∃ out', GenerateSkeleton d out m thr = .ok out') ∧
    ∀ out', GenerateSkeleton d out m thr = .ok out' →
      ∃ x y, out'.keypoints.key_points[c]? = some (x, y) ∧
        0 ≤ x ∧ x < (d.orig_input_width : ℚ) ∧ 0 ≤ y ∧ y < (d.orig_input_height : ℚ) := by
  obtain ⟨st, -, hinv, hrun, hout⟩ := GenerateSkeleton_run d out m thr hwf
  refine ⟨fun hl => ⟨_, hrun hl⟩, ?_⟩
  intro out' h
  obtain ⟨s, hs, hkp, -, -⟩ := hinv.2.2.2 c hc
  obtain ⟨s', hs', hscan⟩ := scanChannel_spec m c hwf hc
  have hss : s' = s := by rw [hs] at hs'; cases hs'; rfl
  subst hss
  obtain ⟨row, col, hr, hcl, hpk, hval⟩ := scan_first_peak m c s' hscan hpos
  have hv : s'.max_val = v := by
    rw [hval]; exact isPlaneMax_unique m c _ _ hpk.2.2.1 hmax
  have hnot : ¬ s'.max_val < thr := by rw [hv]; exact not_lt.mpr hthr
  rw [emittedKeypoint_detected thr _ _ s' hnot, hr, hcl] at hkp
  simp only [Int.cast_natCast] at hkp
  obtain ⟨hx0, hx1⟩ := scaled_coordinate_bounds col m.width d.orig_input_width hpk.2.1 how
  obtain ⟨hy0, hy1⟩ := scaled_coordinate_bounds row m.height d.orig_input_height hpk.1 hoh
  exact ⟨_, _, by rw [(hout out' h).1]; exact hkp, hx0, hx1, hy0, hy1⟩

/-- C16, on the scenario: the keypoint `(2, 0)` lies inside the original image of 4 by 4. -/
theorem detected_keypoint_inside_image_witness :
    scenarioHeatmap.WF ∧ 0 < scenarioDetector.orig_input_width ∧
    0 < scenarioDetector.orig_input_height ∧
    (∃ h w, h < scenarioHeatmap.height ∧ w < scenarioHeatmap.width ∧
      -FLT_MAX < scenarioHeatmap.score 0 h w) ∧
    IsPlaneMax scenarioHeatmap 0 (9/10) ∧ (1/2 : ℚ) ≤ 9/10 ∧
    ∃ out', GenerateSkeleton scenarioDetector CreateSDKOutput scenarioHeatmap (1/2) = .ok out' ∧
      ∃ x y, out'.keypoints.key_points[0]? = some (x, y) ∧
        0 ≤ x ∧ x < 4 ∧ 0 ≤ y ∧ y < 4 := by
  have hpos : ∃ h w, h < scenarioHeatmap.height ∧ w < scenarioHeatmap.width ∧
      -FLT_MAX < scenarioHeatmap.score 0 h w :=
    ⟨0, 0, by decide, by decide, by norm_num [Mat.score, scenarioHeatmap, FLT_MAX]⟩
  have hmax : IsPlaneMax scenarioHeatmap 0 (9/10) := scenarioHeatmap_peak.2.2.1
  have key := detected_keypoint_inside_image scenarioDetector CreateSDKOutput scenarioHeatmap
    (1/2) 0 (9/10) scenarioHeatmap_wf (by decide) (by decide) (by decide) hpos hmax
    (by norm_num)
  obtain ⟨x, y, hxy, h1, h2, h3, h4⟩ := key.2 _ scenario_run
  refine ⟨scenarioHeatmap_wf, by decide, by decide, hpos, hmax, by norm_num, _, scenario_run,
    x, y, hxy, h1, ?_, h3, ?_⟩
  · simpa [scenarioDetector] using h2
  · simpa [scenarioDetector] using h4

theorem filter_sublist_of_imp {α : Type} (p q : α → Bool) :
    ∀ l : List α, (∀ x ∈ l, p x = true → q x = true) →
      List.Sublist (l.filter p) (l.filter q) := by
  intro l
  induction l with
  | nil => intro _; exact List.Sublist.slnil
  | cons a rest ih =>
    intro h
    have hrest := ih (fun x hx => h x (List.mem_cons_of_mem _ hx))
    by_cases hp : p a = true
    · have hq : q a = true := h a (List.mem_cons_self _ _) hp
      rw [List.filter_cons_of_pos hp, List.filter_cons_of_pos hq]
      exact List.Sublist.cons₂ a hrest
    · rw [List.filter_cons_of_neg hp]
      by_cases hq : q a = true
      · rw [List.filter_cons_of_pos hq]
        exact List.Sublist.cons a hrest
      · rw [List.filter_cons_of_neg hq]
        exact hrest

/-- C17: on a readable heatmap, with bone pairs that index channels, a fresh output and
thresholds `t1 <= t2`, the two decodes return; they leave the same confidence list; a
channel flagged detected at `t2` is flagged detected at `t1` and has the same keypoint in
both; and the bone list at `t2` is a sublist of the bone list at `t1`. -/
theorem threshold_monotone (d : SkeletonDetector) (out : SkeletonDetectorOutput) (m : Mat)
    (t1 t2 : ℚ) (hwf : m.WF) (hl : LinesInRange d.lines m.channel)
    (hfresh : out.keypoints.lines = []) (ht : t1 ≤ t2) :
    ∃ st1 st2 out1 out2,
      decodeChannels d out m t1 = .ok st1 ∧ decodeChannels d out m t2 = .ok st2 ∧
      GenerateSkeleton d out m t1 = .ok out1 ∧ GenerateSkeleton d out m t2 = .ok out2 ∧
      out1.confidence_list = out2.confidence_list ∧
      (∀ c, c < m.channel → st2.detected[c]? = some true →
        st1.detected[c]? = some true ∧
        out1.keypoints.key_points[c]? = out2.keypoints.key_points[c]?) ∧
      List.Sublist out2.keypoints.lines out1.keypoints.lines := by
  obtain ⟨st1, hst1, hinv1, hrun1, -⟩ := GenerateSkeleton_run d out m t1 hwf
  obtain ⟨st2, hst2, hinv2, hrun2, -⟩ := GenerateSkeleton_run d out m t2 hwf
  have hflag : ∀ c, c < m.channel → st2.detected[c]? = some true →
      st1.detected[c]? = some true ∧ st1.key_points[c]? = st2.key_points[c]? := by
    intro c hc h2
    obtain ⟨s1, hs1, hk1, -, hd1⟩ := hinv1.2.2.2 c hc
    obtain ⟨s2, hs2, hk2, -, hd2⟩ := hinv2.2.2.2 c hc
    have hss : s2 = s1 := by rw [hs1] at hs2; cases hs2; rfl
    subst hss
    rw [hd2] at h2
    have h2' : t2 ≤ s2.max_val := by simpa using h2
    have h1' : t1 ≤ s2.max_val := ht.trans h2'
    refine ⟨by rw [hd1]; simp [h1'], ?_⟩
    rw [hk1, hk2, emittedKeypoint_detected t1 _ _ s2 (not_lt.mpr h1'),
      emittedKeypoint_detected t2 _ _ s2 (not_lt.mpr h2')]
  refine ⟨st1, st2, _, _, hst1, hst2, hrun1 hl, hrun2 hl, ?_, hflag, ?_⟩
  · show st1.confidence_list = st2.confidence_list
    apply List.ext_getElem?
    intro n
    by_cases hn : n < m.channel
    · obtain ⟨s1, hs1, -, hc1, -⟩ := hinv1.2.2.2 n hn
      obtain ⟨s2, hs2, -, hc2, -⟩ := hinv2.2.2.2 n hn
      have hss : s2 = s1 := by rw [hs1] at hs2; cases hs2; rfl
      subst hss
      rw [hc1, hc2]
    · rw [List.getElem?_eq_none (by rw [hinv1.2.1]; omega),
        List.getElem?_eq_none (by rw [hinv2.2.1]; omega)]
  · show List.Sublist (out.keypoints.lines ++ _) (out.keypoints.lines ++ _)
    rw [hfresh, List.nil_append, List.nil_append]
    apply filter_sublist_of_imp
    intro l hmem hboth
    obtain ⟨⟨ha0, ha1⟩, ⟨hb0, hb1⟩⟩ := hl l hmem
    have lift : ∀ i : Int, 0 ≤ i → i < (m.channel : Int) →
        flagAt st2.detected i = true → flagAt st1.detected i = true := by
      intro i hi0 hi1 hf
      have hlt : i.toNat < m.channel := by omega
      have h2 : st2.detected[i.toNat]? = some true := by
        unfold flagAt at hf
        rw [List.getD_eq_getElem?_getD] at hf
        obtain ⟨s2, -, -, -, hd2⟩ := hinv2.2.2.2 i.toNat hlt
        rw [hd2] at hf ⊢
        simpa using hf
      have h1 := (hflag i.toNat hlt h2).1
      unfold flagAt
      rw [List.getD_eq_getElem?_getD, h1]
      rfl
    simp only [Bool.and_eq_true] at hboth ⊢
    exact ⟨lift l.1 ha0 ha1 hboth.1, lift l.2 hb0 hb1 hboth.2⟩

/-- C17, on two joints with scores 0.9 and 0.8 and the bone `(0, 1)`: at threshold 0.5 the
bone list is `[(0, 1)]`, at threshold 0.85 it is empty, and the confidences are the same. -/
theorem threshold_monotone_witness :
    twoJointHeatmap.WF ∧ LinesInRange twoJointDetector.lines twoJointHeatmap.channel ∧
    CreateSDKOutput.keypoints.lines = [] ∧ (1/2 : ℚ) ≤ 85/100 ∧
    ∃ out1 out2,
      GenerateSkeleton twoJointDetector CreateSDKOutput twoJointHeatmap (1/2) = .ok out1 ∧
      GenerateSkeleton twoJointDetector CreateSDKOutput twoJointHeatmap (85/100) = .ok out2 ∧
      out1.confidence_list = out2.confidence_list ∧
      List.Sublist out2.keypoints.lines out1.keypoints.lines ∧
      out1.keypoints.lines = [(0, 1)] := by
  have hl : LinesInRange twoJointDetector.lines twoJointHeatmap.channel := by
    intro l hl
    simp only [twoJointDetector, List.mem_singleton] at hl
    subst hl
    simp [twoJointHeatmap]
  obtain ⟨st1, st2, out1, out2, -, -, h1, h2, hconf, -, hsub⟩ :=
    threshold_monotone twoJointDetector CreateSDKOutput twoJointHeatmap (1/2) (85/100)
      twoJointHeatmap_wf hl rfl (by norm_num)
  refine ⟨twoJointHeatmap_wf, hl, rfl, by norm_num, out1, out2, h1, h2, hconf, hsub, ?_⟩
  rw [twoJoint_run] at h1
  cases h1
  rfl

/-! ## The reads of the scan -/

end TNN_NS
